import Mathlib

/-!
# Verification of the DDEX ERN Go library (manosdetijera/ddex)

Shallow embedding of the parts of the library relevant to the checked
specification claims, and proofs about them.

Conventions of the embedding:
* Go strings are embedded as `String` in the data model and as `List Char`
  where the code inspects individual bytes/characters (the contents handled
  there are ASCII, so byte = rune = `Char`).
* Go slices become Lean `List`s.  A nil slice and an empty non-nil slice are
  both embedded as `[]` (the library never distinguishes them: the only
  `== nil` test on a slice, in `Validate`, is paired with builders that only
  ever `append`, which in Go turns nil into non-nil exactly when the list
  becomes non-empty).
* Go pointers that can be nil become `Option`.
* Go `int` is embedded as unbounded `Int` (or `Nat` after a positivity
  test); none of the verified computations can overflow a 64-bit int on
  inputs representable in it.
* Mutation through a Go pointer held by a sub-builder is embedded as
  explicit state passing: the sub-builder state carries the mutated value
  and the focused index, and each method becomes a state-transformer.
* `time.Now()` is embedded as an explicit extra parameter: the instant the
  call happens to observe.
-/

/-! ## Character and decimal-string helpers (Go `fmt`, `strings`) -/

/-- The numeric value of an ASCII digit character: Go's `int(char - '0')`. -/
def digitVal (c : Char) : Nat := c.toNat - 48

/-- Digits of `n` in order, most significant first, by structural recursion
on a fuel bound (`fuel ≥ n` suffices); empty for `n = 0`. -/
def natCharsAux : Nat → Nat → List Char
  | 0, _ => []
  | fuel + 1, n =>
    if n = 0 then []
    else natCharsAux fuel (n / 10) ++ [Char.ofNat (48 + n % 10)]

/-- Decimal rendering of a natural number, as Go's `fmt.Sprintf("%d", n)`
produces for a non-negative `int`. -/
def natChars (n : Nat) : List Char :=
  if n = 0 then ['0'] else natCharsAux n n

/-- Embedding of Go's `fmt.Sscanf(s, "%d", &x)` as used by `ParseDuration`,
where the scan error is discarded and `x` keeps its zero value `0` on
failure: the value read from the maximal leading run of ASCII digits
(`0` when there is none).  Sign and leading-space handling of Go's scanner
are not modelled; no caller in the verified code ever passes a slice
containing them. -/
def sscanfNat (l : List Char) : Nat :=
  (l.takeWhile Char.isDigit).foldl (fun acc c => acc * 10 + digitVal c) 0

/-- Go's `strings.Index(d, string(c))` for a one-character pattern:
the first index of `c`, `none` standing for Go's `-1`. -/
def goIndex (l : List Char) (c : Char) : Option Nat :=
  match l with
  | [] => none
  | x :: rest => if x == c then some 0 else (goIndex rest c).map (· + 1)

/-! ## `FormatDuration` / `ParseDuration` (src/pkg/ddex/utils.go:164-223) -/

/-- Embedding of `FormatDuration` from src/pkg/ddex/utils.go:164-186. -/
def FormatDuration (seconds : Int) : List Char :=
  if seconds ≤ 0 then ['P', 'T', '0', 'S']
  else
    let s := seconds.toNat
    let hours := s / 3600
    let minutes := (s % 3600) / 60
    let secs := s % 60
    ['P', 'T']
      ++ (if hours > 0 then natChars hours ++ ['H'] else [])
      ++ (if minutes > 0 then natChars minutes ++ ['M'] else [])
      ++ (if secs > 0 ∨ (hours = 0 ∧ minutes = 0) then natChars secs ++ ['S'] else [])

/-- One `if idx := strings.Index(d, m); idx != -1 { ... }` block of
`ParseDuration`: the value scanned before the marker (0 when the marker is
absent or the scan fails) and the remaining slice. -/
def scanSegment (d : List Char) (marker : Char) : Nat × List Char :=
  match goIndex d marker with
  | some idx => (sscanfNat (d.take idx), d.drop (idx + 1))
  | none => (0, d)

/-- Embedding of `ParseDuration` from src/pkg/ddex/utils.go:188-223.  The Go function
returns `(int, error)`; the embedding returns `Except` with the error
message of the single `fmt.Errorf`. -/
def ParseDuration (duration : List Char) : Except (List Char) Int :=
  if duration.take 2 = ['P', 'T'] then
    let st1 := scanSegment (duration.drop 2) 'H'
    let st2 := scanSegment st1.2 'M'
    let st3 := scanSegment st2.2 'S'
    .ok ((st1.1 * 3600 + st2.1 * 60 + st3.1 : Nat) : Int)
  else
    .error ("invalid duration format: ".toList ++ duration)

/-! ## `ValidateUPC` / `ValidateEAN` (src/pkg/ddex/utils.go:54-112) -/

/-- The summation loop of `ValidateUPC` (`for i, char := range upc[:11]`),
with `i` the running index: positions of even index are weighted 3. -/
def goUPCSum : List Char → Nat → Nat
  | [], _ => 0
  | c :: rest, i => (if i % 2 = 0 then digitVal c * 3 else digitVal c) + goUPCSum rest (i + 1)

/-- Embedding of `ValidateUPC` from src/pkg/ddex/utils.go:54-82.  The regular expression
`^\d{12}$` is embedded as the all-digits test (the length is checked just
before). -/
def ValidateUPC (upc : List Char) : Bool :=
  if upc.length ≠ 12 then false
  else if ¬ (upc.all Char.isDigit) then false
  else
    let sum := goUPCSum (upc.take 11) 0
    let checkDigit := (10 - sum % 10) % 10
    checkDigit == digitVal (upc.getD 11 '0')

/-- The summation loop of `ValidateEAN`: positions of even index are
weighted 1, odd index 3. -/
def goEANSum : List Char → Nat → Nat
  | [], _ => 0
  | c :: rest, i => (if i % 2 = 0 then digitVal c else digitVal c * 3) + goEANSum rest (i + 1)

/-- Embedding of `ValidateEAN` from src/pkg/ddex/utils.go:84-112. -/
def ValidateEAN (ean : List Char) : Bool :=
  if ean.length ≠ 13 then false
  else if ¬ (ean.all Char.isDigit) then false
  else
    let sum := goEANSum (ean.take 12) 0
    let checkDigit := (10 - sum % 10) % 10
    checkDigit == digitVal (ean.getD 12 '0')

/-- Specification-side weighted check sum for UPC, written as the claim
states it: alternating weights 3,1,3,1,… over the first 11 digits. -/
def upcSpecSum (l : List Char) : Nat :=
  ∑ i ∈ Finset.range 11, (if i % 2 = 0 then 3 else 1) * digitVal (l.getD i '0')

/-- Specification-side characterisation of a valid UPC: a 12-digit all-digit
string whose final digit equals the mod-10 check digit computed from the
weighted sum of the first 11 digits. -/
def UPCSpec (l : List Char) : Prop :=
  l.length = 12 ∧ (∀ c ∈ l, c.isDigit = true) ∧
    digitVal (l.getD 11 '0') = (10 - upcSpecSum l % 10) % 10

/-- Specification-side weighted check sum for EAN: alternating weights
1,3,1,3,… over the first 12 digits. -/
def eanSpecSum (l : List Char) : Nat :=
  ∑ i ∈ Finset.range 12, (if i % 2 = 0 then 1 else 3) * digitVal (l.getD i '0')

/-- Specification-side characterisation of a valid EAN: a 13-digit all-digit
string whose final digit equals the mod-10 check digit computed from the
weighted sum of the first 12 digits. -/
def EANSpec (l : List Char) : Prop :=
  l.length = 13 ∧ (∀ c ∈ l, c.isDigit = true) ∧
    digitVal (l.getD 12 '0') = (10 - eanSpecSum l % 10) % 10

/-! ## Decidable equality for `Except` (used to evaluate concrete results) -/

instance {ε α : Type} [DecidableEq ε] [DecidableEq α] : DecidableEq (Except ε α) := fun x y =>
  match x, y with
  | .ok a, .ok b =>
    if h : a = b then .isTrue (by rw [h]) else .isFalse (fun hh => h (Except.ok.inj hh))
  | .error a, .error b =>
    if h : a = b then .isTrue (by rw [h]) else .isFalse (fun hh => h (Except.error.inj hh))
  | .ok _, .error _ => .isFalse (fun hh => Except.noConfusion hh)
  | .error _, .ok _ => .isFalse (fun hh => Except.noConfusion hh)

/-! ## The `DateTime` codec (src/pkg/ddex/types.go:10-35)

Go's `time.Time` is embedded abstractly as a counter `GoTime`; the zero
value of the Go struct corresponds to `val = 0` (`time.Time.IsZero`).
The fixed RFC-3339 wire format produced and consumed by the Go standard
library is not itself part of this repository, so it is modelled: an
injective rendering of the abstract instant, and a parser that succeeds
exactly on such renderings. -/

/-- Abstract embedding of `time.Time`: the zero value is `val = 0`. -/
structure GoTime where
  val : Nat := 0
deriving DecidableEq

/-- Embedding of the `DateTime` struct from src/pkg/ddex/types.go:11-13. -/
structure DateTime where
  Time : GoTime := {}
deriving DecidableEq

/-- Modelled from the spec: the fixed RFC-3339 wire format written by Go's
`t.Format(time.RFC3339)` (standard library, not in this repository);
abstracted to an injective rendering of the instant. -/
def rfc3339Render (t : GoTime) : List Char := natChars t.val

/-- Modelled from the spec: Go's `time.Parse(time.RFC3339, s)` (standard
library, not in this repository); abstracted to a parser that succeeds
exactly on renderings and fails on anything else. -/
def rfc3339Parse (s : List Char) : Except (List Char) GoTime :=
  if s ≠ [] ∧ s.all Char.isDigit then .ok ⟨sscanfNat s⟩
  else .error ("parsing time: invalid RFC 3339 value".toList)

/-- Embedding of `DateTime.MarshalXML` from src/pkg/ddex/types.go:16-21:
the element content written for the field, `none` when nothing at all is
emitted (the `IsZero` early return). -/
def DateTimeMarshalXML (dt : DateTime) : Option (List Char) :=
  if dt.Time.val = 0 then none
  else some (rfc3339Render dt.Time)

/-- Embedding of `DateTime.UnmarshalXML` from src/pkg/ddex/types.go:24-35,
applied to the decoded element content. -/
def DateTimeUnmarshalXML (s : List Char) : Except (List Char) DateTime :=
  match rfc3339Parse s with
  | .error e => .error e
  | .ok t => .ok { Time := t }

/-- Modelled from the spec: decoding an optional `DateTime` field with Go's
`encoding/xml` (standard library, not in this repository) — when the
element is absent the unmarshaller is never invoked and the field keeps
its zero value; when present, `DateTime.UnmarshalXML` runs on it. -/
def decodeDateTimeField (elem : Option (List Char)) : Except (List Char) DateTime :=
  match elem with
  | none => .ok {}
  | some s => DateTimeUnmarshalXML s

/-! ## ERN 3.8 message data model

Embedding of the structs referenced by the verified operations.  Struct
fields that no embedded operation reads or writes are omitted; every field
kept has the zero-value default of its Go type, so a Lean record literal
that sets some fields is exactly the corresponding Go composite literal.
The builder of src/unnamed/part_001 belongs to the same package as
src/unnamed/part_003; where a struct declaration of that package is not
among the sources, its fields are reconstructed from their uses in the
builder code. -/

structure PartyID where
  Value : String := ""
  Namespace : String := ""
deriving DecidableEq

structure Name where
  FullName : String := ""
  FullNameAscii : String := ""
  LanguageCode : String := ""
  NameType : String := ""
deriving DecidableEq

structure MessageSender where
  PartyId : List PartyID := []
  PartyName : List Name := []
  TradingName : String := ""
deriving DecidableEq

structure MessageRecipient where
  PartyId : List PartyID := []
  PartyName : List Name := []
  TradingName : String := ""
deriving DecidableEq

/-- Embedding of `MessageHeader` from src/pkg/ddex/message_header.go:10-22
(`MessageAuditTrail` omitted: no embedded operation touches it). -/
structure MessageHeader where
  MessageThreadId : String := ""
  MessageId : String := ""
  MessageFileName : String := ""
  MessageSender : Option MessageSender := none
  SentOnBehalfOf : String := ""
  MessageRecipient : List MessageRecipient := []
  MessageCreatedDateTime : Option DateTime := none
  MessageControlType : String := ""
  Comment : String := ""
deriving DecidableEq

structure ProprietaryId where
  Namespace : String := ""
  Value : String := ""
deriving DecidableEq

structure EventDate where
  Value : String := ""
  IsApproximate : Bool := false
deriving DecidableEq

structure Title where
  LanguageAndScriptCode : String := ""
  TitleType : String := ""
  TitleText : String := ""
  SubTitle : String := ""
deriving DecidableEq

structure DisplayArtistName where
  Value : String := ""
  LanguageAndScriptCode : String := ""
deriving DecidableEq

structure DisplayArtist where
  SequenceNumber : Int := 0
  ArtistPartyReference : String := ""
  DisplayArtistRole : String := ""
deriving DecidableEq

structure ResourceContributor where
  PartyReference : String := ""
  Role : List String := []
deriving DecidableEq

structure DelegatedUsageRights where
  UseType : List String := []
  TerritoryOfRightsDelegation : List String := []
deriving DecidableEq

/-- Rights-controller composite in the variant used by the builder of
src/unnamed/part_001 (fields as set by `WithRightsController`). -/
structure RightsController where
  PartyReference : String := ""
  Role : List String := []
  RightSharePercentage : String := ""
  DelegatedUsageRights : List DelegatedUsageRights := []
deriving DecidableEq

structure PLine where
  Year : Int := 0
  PLineText : String := ""
deriving DecidableEq

structure CLine where
  Year : Int := 0
  CLineText : String := ""
deriving DecidableEq

structure Genre where
  GenreText : String := ""
  SubGenre : String := ""
deriving DecidableEq

structure Keywords where
  Value : String := ""
  LanguageAndScriptCode : String := ""
deriving DecidableEq

structure File where
  URI : String := ""
deriving DecidableEq

structure TechnicalVideoDetails where
  TechnicalResourceDetailsReference : String := ""
  File : Option File := none
deriving DecidableEq

structure TechnicalImageDetails where
  TechnicalResourceDetailsReference : String := ""
  File : Option File := none
deriving DecidableEq

structure VideoId where
  ISRC : String := ""
  ProprietaryId : List ProprietaryId := []
deriving DecidableEq

structure ImageId where
  ProprietaryId : List ProprietaryId := []
deriving DecidableEq

structure ImageType where
  Value : String := ""
deriving DecidableEq

/-- Embedding of `VideoDetailsByTerritory` (src/pkg/ddex/resource.go:73-124);
fields untouched by the embedded builder operations are omitted. -/
structure VideoDetailsByTerritory where
  TerritoryCode : List String := []
  ExcludedTerritoryCode : List String := []
  Title : List Title := []
  DisplayArtist : List DisplayArtist := []
  ResourceContributor : List ResourceContributor := []
  DisplayArtistName : List DisplayArtistName := []
  RightsController : List RightsController := []
  PLine : List PLine := []
  Genre : List Genre := []
  ParentalWarningType : List String := []
  Keywords : List Keywords := []
  CLine : List CLine := []
  TechnicalVideoDetails : List TechnicalVideoDetails := []
deriving DecidableEq

/-- Embedding of `Video` (src/pkg/ddex/resource.go:15-70); `Type` is named
`Type'` because `Type` is reserved in Lean.  Fields untouched by the
embedded operations are omitted. -/
structure Video where
  ResourceReference : String := ""
  Type' : String := ""
  VideoId : List VideoId := []
  Duration : String := ""
  CreationDate : Option EventDate := none
  VideoDetailsByTerritory : List VideoDetailsByTerritory := []
deriving DecidableEq

/-- Embedding of `ImageDetailsByTerritory` (src/pkg/ddex/resource.go:257-289);
fields untouched by the embedded operations are omitted. -/
structure ImageDetailsByTerritory where
  TerritoryCode : List String := []
  ExcludedTerritoryCode : List String := []
  CLine : List CLine := []
  ParentalWarningType : List String := []
  TechnicalImageDetails : List TechnicalImageDetails := []
deriving DecidableEq

/-- Embedding of `Image` (src/pkg/ddex/resource.go:229-248); fields
untouched by the embedded operations are omitted. -/
structure Image where
  ImageType : Option ImageType := none
  ImageId : List ImageId := []
  ResourceReference : String := ""
  CreationDate : Option EventDate := none
  ImageDetailsByTerritory : List ImageDetailsByTerritory := []
deriving DecidableEq

/-! ## Release, deal and message structs (package of src/unnamed/part_001 and
src/unnamed/part_003) -/

structure ReferenceTitle where
  TitleText : String := ""
  SubTitle : String := ""
deriving DecidableEq

structure ReleaseType where
  Value : String := ""
deriving DecidableEq

structure ReleaseId where
  GRid : String := ""
  ISRC : String := ""
  ICPN : String := ""
  ISAN : String := ""
  ProprietaryId : List ProprietaryId := []
deriving DecidableEq

/-- Audio-visual rating in the variant used by the builder of
src/unnamed/part_001 (`WithAvRating` assigns a plain string agency). -/
structure AvRating where
  RatingText : String := ""
  RatingAgency : String := ""
deriving DecidableEq

structure RelatedRelease where
  ReleaseId : ReleaseId := {}
  ReleaseRelationshipType : String := ""
deriving DecidableEq

structure LabelName where
  LabelNameType : String := ""
  Value : String := ""
  LanguageAndScriptCode : String := ""
deriving DecidableEq

structure ParentalWarningType where
  Value : String := ""
deriving DecidableEq

structure Comment where
  Value : String := ""
  LanguageAndScriptCode : String := ""
deriving DecidableEq

structure AdditionalTitle where
  TitleText : String := ""
deriving DecidableEq

structure LinkedReleaseResourceReference where
  LinkDescription : String := ""
  Value : String := ""
deriving DecidableEq

/-- Resource-group content item in the variant used by the builder of
src/unnamed/part_001 (`AddContentItem` assigns a plain string resource
reference). -/
structure ResourceGroupContentItem where
  SequenceNumber : Int := 0
  ReleaseResourceReference : String := ""
  LinkedReleaseResourceReference : List LinkedReleaseResourceReference := []
deriving DecidableEq

/-- Resource group in the variant used by the builder of
src/unnamed/part_001 (`AddResourceGroup` assigns `AdditionalTitle`). -/
structure ResourceGroup where
  AdditionalTitle : AdditionalTitle := {}
  SequenceNumber : Int := 0
  ResourceGroupContentItem : List ResourceGroupContentItem := []
deriving DecidableEq

/-- Embedding of `ReleaseDetailsByTerritory` in the variant used by the
builder of src/unnamed/part_001 (fields as read/written there); fields
untouched by the embedded operations are omitted. -/
structure ReleaseDetailsByTerritory where
  TerritoryCode : List String := []
  ExcludedTerritoryCode : List String := []
  DisplayArtistName : List Name := []
  LabelName : List LabelName := []
  DisplayArtist : List DisplayArtist := []
  ParentalWarningType : List ParentalWarningType := []
  AvRating : List AvRating := []
  MarketingComment : Option Comment := none
  ResourceGroup : List ResourceGroup := []
  Genre : List Genre := []
  PLine : List PLine := []
  CLine : List CLine := []
  ReleaseDate : Option EventDate := none
  OriginalReleaseDate : Option EventDate := none
  Keywords : List Keywords := []
  RelatedRelease : List RelatedRelease := []
deriving DecidableEq

/-- Embedding of `Release` in the variant used by the builder of
src/unnamed/part_001; fields untouched by the embedded operations are
omitted. -/
structure Release where
  ReleaseId : List ReleaseId := []
  ReleaseReference : String := ""
  ReferenceTitle : Option ReferenceTitle := none
  ReleaseType : List ReleaseType := []
  ReleaseDetailsByTerritory : List ReleaseDetailsByTerritory := []
  Duration : String := ""
  PLine : List PLine := []
  CLine : List CLine := []
  ReleaseResourceReference : List String := []
deriving DecidableEq

structure ReleaseList where
  Release : List Release := []
deriving DecidableEq

structure Usage where
  UseType : List String := []
deriving DecidableEq

structure ValidityPeriod where
  StartDate : String := ""
  StartDateTime : String := ""
  EndDate : String := ""
deriving DecidableEq

structure RightsClaimPolicy where
  RightsClaimPolicyType : String := ""
deriving DecidableEq

/-- Embedding of `DealTerms` (src/pkg/ddex/deal.go:25-84); fields untouched
by the embedded operations are omitted. -/
structure DealTerms where
  CommercialModelType : List String := []
  Usage : List Usage := []
  TerritoryCode : List String := []
  ExcludedTerritoryCode : List String := []
  ValidityPeriod : List ValidityPeriod := []
  RightsClaimPolicy : List RightsClaimPolicy := []
deriving DecidableEq

structure Deal where
  DealTerms : Option DealTerms := none
deriving DecidableEq

structure ReleaseDeal where
  DealReleaseReference : String := ""
  Deal : List Deal := []
deriving DecidableEq

structure DealList where
  ReleaseDeal : List ReleaseDeal := []
deriving DecidableEq

/-- Embedding of `ResourceList` (src/pkg/ddex/resource.go:6-12);
`SoundRecording` and `Text` omitted: no embedded operation touches them. -/
structure ResourceList where
  Video : List Video := []
  Image : List Image := []
deriving DecidableEq

/-- Embedding of `NewReleaseMessage` from src/unnamed/part_003:10-24
(`CollectionList` omitted: no embedded operation touches it). -/
structure NewReleaseMessage where
  XmlnsErn : String := ""
  XmlnsXsi : String := ""
  XsiSchemaLocation : String := ""
  MessageSchemaVersionId : String := ""
  ReleaseProfileVersionId : String := ""
  LanguageAndScriptCode : String := ""
  MessageHeader : Option MessageHeader := none
  UpdateIndicator : String := ""
  ResourceList : Option ResourceList := none
  ReleaseList : Option ReleaseList := none
  DealList : Option DealList := none
deriving DecidableEq

/-- Schema constants from src/unnamed/part_003:54-59. -/
def MessageSchemaVersionId : String := "ern/382"

def XmlnsErn : String := "http://ddex.net/xml/ern/382"

def XmlnsXsi : String := "http://www.w3.org/2001/XMLSchema-instance"

def XsiSchemaLocation : String :=
  "http://ddex.net/xml/ern/382 http://ddex.net/xml/ern/382/release-notification.xsd"

/-! ## The main builder (src/unnamed/part_001:10-164 and the identical
src/pkg/ddex/builder.go:10-163) -/

structure Builder where
  Message : NewReleaseMessage
deriving DecidableEq

/-- Embedding of `NewDDEXBuilder` from src/unnamed/part_001:16-30. -/
def NewDDEXBuilder : Builder :=
  { Message :=
      { XmlnsErn := XmlnsErn
        XmlnsXsi := XmlnsXsi
        XsiSchemaLocation := XsiSchemaLocation
        MessageSchemaVersionId := MessageSchemaVersionId
        ReleaseProfileVersionId := "Video"
        LanguageAndScriptCode := "en"
        ResourceList := some {}
        ReleaseList := some {}
        DealList := some {} } }

/-- Embedding of `Builder.WithMessageHeader` (src/pkg/ddex/builder.go:32-50,
identical in src/unnamed/part_000:34-52 and src/unnamed/part_001:33-51).
`now` is the instant observed by the `time.Now()` call. -/
def WithMessageHeader (b : Builder) (messageId threadId senderDPID senderName : String)
    (now : GoTime) : Builder :=
  { b with Message :=
      { b.Message with MessageHeader := some (
          { MessageThreadId := threadId
            MessageId := messageId
            MessageSender := some (
              { PartyId := [{ Value := senderDPID }]
                PartyName := [{ FullName := senderName }] })
            MessageCreatedDateTime := some { Time := now } }) } }

/-- Embedding of `Builder.AddRecipient` (src/unnamed/part_001:54-70). -/
def AddRecipient (b : Builder) (dpid name : String) : Builder :=
  let hdr := match b.Message.MessageHeader with
    | none => ({} : MessageHeader)
    | some h => h
  { b with Message :=
      { b.Message with MessageHeader := some (
          { hdr with MessageRecipient := hdr.MessageRecipient ++
              [{ PartyId := [{ Value := dpid }], PartyName := [{ FullName := name }] }] }) } }

/-! ## `Validate` (src/unnamed/part_003:190-232) -/

/-- Embedding of `NewReleaseMessage.Validate` from
src/unnamed/part_003:190-232: `none` for a nil error, `some msg` for the
error with message `msg`.  The Go membership map `dealReleaseRefs` is
embedded as the `List.any` membership test it computes. -/
def Validate (nrm : NewReleaseMessage) : Option String :=
  match nrm.MessageHeader with
  | none => some "MessageHeader is required"
  | some hdr =>
    if hdr.MessageId = "" then some "MessageHeader.MessageId is required"
    else if hdr.MessageThreadId = "" then some "MessageHeader.MessageThreadId is required"
    else if hdr.MessageSender.isNone then some "MessageHeader.MessageSender is required"
    else if hdr.MessageRecipient = [] then some "MessageHeader.MessageRecipient is required"
    else
      match nrm.ReleaseList with
      | none => some "at least one Release is required"
      | some rl =>
        if rl.Release = [] then some "at least one Release is required"
        else
          match nrm.DealList with
          | none => some "at least one Deal is required"
          | some dl =>
            if dl.ReleaseDeal = [] then some "at least one Deal is required"
            else
              match rl.Release.find? (fun r =>
                  ¬ dl.ReleaseDeal.any (fun rd => rd.DealReleaseReference == r.ReleaseReference)) with
              | some r => some ("no deal found for release reference: " ++ r.ReleaseReference)
              | none => none

/-! ## Positional list update

Go sub-builders mutate one element of a parent slice through a pointer
(`&list[i]`); the embedding rewrites the element at that index. -/

def listUpdate {α : Type} : List α → Nat → (α → α) → List α
  | [], _, _ => []
  | a :: as, 0, f => f a :: as
  | a :: as, n + 1, f => a :: listUpdate as n f

/-! ## `VideoBuilder` (src/unnamed/part_001:188-429, plus
`AddVideoDetailsByTerritory` from src/pkg/ddex/builder.go:202-220)

The Go struct holds `currentTerritoryDetails *VideoDetailsByTerritory` and
`currentTerritoryIndex int`; the pointer is nil exactly when no territory
has been focused yet, and otherwise targets slot `currentTerritoryIndex`
of the video's territory slice.  The embedding keeps the single field
`currentTerritoryIndex : Option Nat`. -/

structure VideoBuilder where
  video : Video
  currentTerritoryIndex : Option Nat := none
deriving DecidableEq

/-- The fresh `VideoBuilder` returned by `Builder.AddVideo`
(src/unnamed/part_001:91-104), scoped to the just-appended video. -/
def freshVideoBuilder (resourceRef videoType : String) : VideoBuilder :=
  { video := { ResourceReference := resourceRef, Type' := videoType } }

/-- The lookup loop of `VideoBuilder.WithTerritory`
(src/unnamed/part_001:207-213): first index whose section has a non-empty
`TerritoryCode` starting with `c0`. -/
def findTerritoryIdx (sections : List VideoDetailsByTerritory) (c0 : String) : Option Nat :=
  match sections with
  | [] => none
  | d :: rest =>
    if d.TerritoryCode ≠ [] ∧ d.TerritoryCode.getD 0 "" = c0 then some 0
    else (findTerritoryIdx rest c0).map (· + 1)

/-- Embedding of `VideoBuilder.WithTerritory` from
src/unnamed/part_001:204-225. -/
def VideoBuilder.WithTerritory (vb : VideoBuilder) (territoryCodes : List String) : VideoBuilder :=
  let found :=
    if territoryCodes ≠ [] then
      findTerritoryIdx vb.video.VideoDetailsByTerritory (territoryCodes.getD 0 "")
    else none
  match found with
  | some i => { vb with currentTerritoryIndex := some i }
  | none =>
    { vb with
        video := { vb.video with VideoDetailsByTerritory :=
          vb.video.VideoDetailsByTerritory ++ [{ TerritoryCode := territoryCodes }] }
        currentTerritoryIndex := some vb.video.VideoDetailsByTerritory.length }

/-- Embedding of `VideoBuilder.ensureTerritory` from
src/unnamed/part_001:197-201. -/
def VideoBuilder.ensureTerritory (vb : VideoBuilder) : VideoBuilder :=
  match vb.currentTerritoryIndex with
  | none => vb.WithTerritory ["Worldwide"]
  | some _ => vb

/-- A write through `vb.currentTerritoryDetails`: rewrite the focused
territory section.  Every caller runs `ensureTerritory` first, so the
focus is always set when this is reached. -/
def VideoBuilder.modifyCurrent (vb : VideoBuilder)
    (f : VideoDetailsByTerritory → VideoDetailsByTerritory) : VideoBuilder :=
  match vb.currentTerritoryIndex with
  | some i =>
    { vb with video := { vb.video with VideoDetailsByTerritory :=
        (listUpdate vb.video.VideoDetailsByTerritory i f) } }
  | none => vb

/-- Embedding of `VideoBuilder.WithTitle` (src/unnamed/part_001:228-241). -/
def VideoBuilder.WithTitle (vb : VideoBuilder) (title subtitle : String) : VideoBuilder :=
  vb.ensureTerritory.modifyCurrent (fun d =>
    { d with Title := d.Title ++
        [{ TitleText := title, SubTitle := if subtitle ≠ "" then subtitle else "" }] })

/-- Embedding of `VideoBuilder.WithDisplayArtistName`
(src/unnamed/part_001:244-255). -/
def VideoBuilder.WithDisplayArtistName (vb : VideoBuilder) (artistName languageCode : String) :
    VideoBuilder :=
  vb.ensureTerritory.modifyCurrent (fun d =>
    { d with DisplayArtistName := d.DisplayArtistName ++
        [{ Value := artistName
           LanguageAndScriptCode := if languageCode = "" then "en" else languageCode }] })

/-- Embedding of `VideoBuilder.WithArtist` (src/unnamed/part_001:258-270). -/
def VideoBuilder.WithArtist (vb : VideoBuilder) (partyRef role : String) (sequence : Int) :
    VideoBuilder :=
  vb.ensureTerritory.modifyCurrent (fun d =>
    if partyRef ≠ "" then
      { d with DisplayArtist := d.DisplayArtist ++
          [{ ArtistPartyReference := partyRef, DisplayArtistRole := role
             SequenceNumber := sequence }] }
    else d)

/-- Embedding of `VideoBuilder.WithContributor` (src/unnamed/part_001:274-285). -/
def VideoBuilder.WithContributor (vb : VideoBuilder) (partyRef : String) (roles : List String)
    (_sequence : Int) : VideoBuilder :=
  vb.ensureTerritory.modifyCurrent (fun d =>
    if partyRef ≠ "" ∧ roles ≠ [] then
      { d with ResourceContributor := d.ResourceContributor ++
          [{ PartyReference := partyRef, Role := roles }] }
    else d)

/-- Embedding of `VideoBuilder.WithRightsController`
(src/unnamed/part_001:288-309).  The Go `percentage float64` is passed
already formatted (`fmt.Sprintf("%.2f", percentage)`): floating-point
formatting is outside the embedding and irrelevant to the claims. -/
def VideoBuilder.WithRightsController (vb : VideoBuilder) (partyRef pctFormatted : String)
    (territories : List String) : VideoBuilder :=
  vb.ensureTerritory.modifyCurrent (fun d =>
    { d with RightsController := d.RightsController ++
        [{ PartyReference := partyRef
           Role := ["RightsController"]
           RightSharePercentage := pctFormatted
           DelegatedUsageRights :=
             [{ UseType := ["UserMakeAvailableUserProvided"]
                TerritoryOfRightsDelegation :=
                  if territories = [] then ["Worldwide"] else territories }] }] })

/-- Embedding of `VideoBuilder.WithDuration` (src/unnamed/part_001:312-315):
video level, no territory involved. -/
def VideoBuilder.WithDuration (vb : VideoBuilder) (duration : String) : VideoBuilder :=
  { vb with video := { vb.video with Duration := duration } }

/-- Embedding of `VideoBuilder.WithCreationDate` (src/unnamed/part_001:318-324). -/
def VideoBuilder.WithCreationDate (vb : VideoBuilder) (date : String) (isApproximate : Bool) :
    VideoBuilder :=
  { vb with video := { vb.video with CreationDate :=
      (some { Value := date, IsApproximate := isApproximate }) } }

/-- Embedding of `VideoBuilder.WithParentalWarning` (src/unnamed/part_001:327-332). -/
def VideoBuilder.WithParentalWarning (vb : VideoBuilder) (warningType : String) : VideoBuilder :=
  vb.ensureTerritory.modifyCurrent (fun d =>
    { d with ParentalWarningType := d.ParentalWarningType ++ [warningType] })

/-- Embedding of `VideoBuilder.WithPLine` (src/unnamed/part_001:335-343). -/
def VideoBuilder.WithPLine (vb : VideoBuilder) (year : Int) (text : String) : VideoBuilder :=
  vb.ensureTerritory.modifyCurrent (fun d =>
    { d with PLine := d.PLine ++ [{ Year := year, PLineText := text }] })

/-- Embedding of `VideoBuilder.WithCLine` (src/unnamed/part_001:346-354). -/
def VideoBuilder.WithCLine (vb : VideoBuilder) (year : Int) (text : String) : VideoBuilder :=
  vb.ensureTerritory.modifyCurrent (fun d =>
    { d with CLine := d.CLine ++ [{ Year := year, CLineText := text }] })

/-- Embedding of `VideoBuilder.WithGenre` (src/unnamed/part_001:357-368). -/
def VideoBuilder.WithGenre (vb : VideoBuilder) (genreText subGenre : String) : VideoBuilder :=
  vb.ensureTerritory.modifyCurrent (fun d =>
    { d with Genre := d.Genre ++
        [{ GenreText := genreText, SubGenre := if subGenre ≠ "" then subGenre else "" }] })

/-- Embedding of `VideoBuilder.WithTechnicalDetails` (src/unnamed/part_001:371-381). -/
def VideoBuilder.WithTechnicalDetails (vb : VideoBuilder) (techRef fileURI : String) :
    VideoBuilder :=
  vb.ensureTerritory.modifyCurrent (fun d =>
    { d with TechnicalVideoDetails := d.TechnicalVideoDetails ++
        [{ TechnicalResourceDetailsReference := techRef, File := some { URI := fileURI } }] })

/-- Embedding of `VideoBuilder.WithISRC` (src/unnamed/part_001:384-389):
video level. -/
def VideoBuilder.WithISRC (vb : VideoBuilder) (isrc : String) : VideoBuilder :=
  { vb with video := { vb.video with VideoId := vb.video.VideoId ++ [{ ISRC := isrc }] } }

/-- Embedding of `VideoBuilder.AddKeywords` (src/unnamed/part_001:392-401). -/
def VideoBuilder.AddKeywords (vb : VideoBuilder) (keywords : List String) : VideoBuilder :=
  vb.ensureTerritory.modifyCurrent (fun d =>
    { d with Keywords := d.Keywords ++ keywords.map (fun k => { Value := k }) })

/-- Embedding of `VideoBuilder.AddKeywordsWithLanguage`
(src/unnamed/part_001:404-414). -/
def VideoBuilder.AddKeywordsWithLanguage (vb : VideoBuilder) (languageCode : String)
    (keywords : List String) : VideoBuilder :=
  vb.ensureTerritory.modifyCurrent (fun d =>
    { d with Keywords := d.Keywords ++
        keywords.map (fun k => { Value := k, LanguageAndScriptCode := languageCode }) })

/-- Embedding of `VideoBuilder.AddProprietaryId` (src/unnamed/part_001:417-424):
video level. -/
def VideoBuilder.AddProprietaryId (vb : VideoBuilder) (ns value : String) : VideoBuilder :=
  { vb with video := { vb.video with VideoId := vb.video.VideoId ++
      [{ ProprietaryId := [{ Namespace := ns, Value := value }] }] } }

/-- Embedding of `VideoBuilder.AddVideoDetailsByTerritory` from
src/pkg/ddex/builder.go:202-220: an empty code list is replaced by
`["Worldwide"]`, then a new section is appended and focused. -/
def VideoBuilder.AddVideoDetailsByTerritory (vb : VideoBuilder) (territoryCodes : List String) :
    VideoBuilder :=
  let codes := if territoryCodes = [] then ["Worldwide"] else territoryCodes
  { vb with
      video := { vb.video with VideoDetailsByTerritory :=
        vb.video.VideoDetailsByTerritory ++ [{ TerritoryCode := codes }] }
      currentTerritoryIndex := some vb.video.VideoDetailsByTerritory.length }

/-- One call on a `VideoBuilder`: the methods of src/unnamed/part_001
(`Done`, which only navigates, is omitted) together with
`AddVideoDetailsByTerritory` of src/pkg/ddex/builder.go. -/
inductive VideoOp : Type
  | withTerritory (territoryCodes : List String)
  | withTitle (title subtitle : String)
  | withDisplayArtistName (artistName languageCode : String)
  | withArtist (partyRef role : String) (sequence : Int)
  | withContributor (partyRef : String) (roles : List String) (sequence : Int)
  | withRightsController (partyRef pctFormatted : String) (territories : List String)
  | withDuration (duration : String)
  | withCreationDate (date : String) (isApproximate : Bool)
  | withParentalWarning (warningType : String)
  | withPLine (year : Int) (text : String)
  | withCLine (year : Int) (text : String)
  | withGenre (genreText subGenre : String)
  | withTechnicalDetails (techRef fileURI : String)
  | withISRC (isrc : String)
  | addKeywords (keywords : List String)
  | addKeywordsWithLanguage (languageCode : String) (keywords : List String)
  | addProprietaryId (ns value : String)
  | addVideoDetailsByTerritory (territoryCodes : List String)
deriving DecidableEq

/-- Dispatch of a `VideoOp` to the embedded method. -/
def applyVideoOp (vb : VideoBuilder) : VideoOp → VideoBuilder
  | .withTerritory codes => vb.WithTerritory codes
  | .withTitle t s => vb.WithTitle t s
  | .withDisplayArtistName a l => vb.WithDisplayArtistName a l
  | .withArtist p r n => vb.WithArtist p r n
  | .withContributor p rs n => vb.WithContributor p rs n
  | .withRightsController p pct ts => vb.WithRightsController p pct ts
  | .withDuration d => vb.WithDuration d
  | .withCreationDate d a => vb.WithCreationDate d a
  | .withParentalWarning w => vb.WithParentalWarning w
  | .withPLine y t => vb.WithPLine y t
  | .withCLine y t => vb.WithCLine y t
  | .withGenre g s => vb.WithGenre g s
  | .withTechnicalDetails r u => vb.WithTechnicalDetails r u
  | .withISRC i => vb.WithISRC i
  | .addKeywords ks => vb.AddKeywords ks
  | .addKeywordsWithLanguage l ks => vb.AddKeywordsWithLanguage l ks
  | .addProprietaryId n v => vb.AddProprietaryId n v
  | .addVideoDetailsByTerritory codes => vb.AddVideoDetailsByTerritory codes

/-- A chain of calls on a `VideoBuilder`, first call first. -/
def runVideoOps (vb : VideoBuilder) (ops : List VideoOp) : VideoBuilder :=
  ops.foldl applyVideoOp vb

/-! ## `ImageBuilder` (src/unnamed/part_001:432-529, plus
`AddImageDetailsByTerritory` from src/pkg/ddex/builder.go:432-450) -/

structure ImageBuilder where
  image : Image
  currentTerritoryIndex : Option Nat := none
deriving DecidableEq

/-- The fresh `ImageBuilder` returned by `Builder.AddImage`
(src/unnamed/part_001:107-123). -/
def freshImageBuilder (resourceRef imageType : String) : ImageBuilder :=
  { image :=
      { ResourceReference := resourceRef
        ImageType := if imageType ≠ "" then some { Value := imageType } else none } }

/-- The lookup loop of `ImageBuilder.WithTerritory`
(src/unnamed/part_001:449-457). -/
def findImageTerritoryIdx (sections : List ImageDetailsByTerritory) (c0 : String) : Option Nat :=
  match sections with
  | [] => none
  | d :: rest =>
    if d.TerritoryCode ≠ [] ∧ d.TerritoryCode.getD 0 "" = c0 then some 0
    else (findImageTerritoryIdx rest c0).map (· + 1)

/-- Embedding of `ImageBuilder.WithTerritory` from
src/unnamed/part_001:447-468. -/
def ImageBuilder.WithTerritory (ib : ImageBuilder) (territoryCodes : List String) : ImageBuilder :=
  let found :=
    if territoryCodes ≠ [] then
      findImageTerritoryIdx ib.image.ImageDetailsByTerritory (territoryCodes.getD 0 "")
    else none
  match found with
  | some i => { ib with currentTerritoryIndex := some i }
  | none =>
    { ib with
        image := { ib.image with ImageDetailsByTerritory :=
          ib.image.ImageDetailsByTerritory ++ [{ TerritoryCode := territoryCodes }] }
        currentTerritoryIndex := some ib.image.ImageDetailsByTerritory.length }

/-- Embedding of `ImageBuilder.ensureTerritory` (src/unnamed/part_001:440-444). -/
def ImageBuilder.ensureTerritory (ib : ImageBuilder) : ImageBuilder :=
  match ib.currentTerritoryIndex with
  | none => ib.WithTerritory ["Worldwide"]
  | some _ => ib

/-- A write through `ib.currentTerritoryDetails`. -/
def ImageBuilder.modifyCurrent (ib : ImageBuilder)
    (f : ImageDetailsByTerritory → ImageDetailsByTerritory) : ImageBuilder :=
  match ib.currentTerritoryIndex with
  | some i =>
    { ib with image := { ib.image with ImageDetailsByTerritory :=
        (listUpdate ib.image.ImageDetailsByTerritory i f) } }
  | none => ib

/-- Embedding of `ImageBuilder.WithProprietaryId` (src/unnamed/part_001:471-480):
image level, overwrites the whole `ImageId` list. -/
def ImageBuilder.WithProprietaryId (ib : ImageBuilder) (ns value : String) : ImageBuilder :=
  { ib with image := { ib.image with ImageId :=
      [{ ProprietaryId := [{ Namespace := ns, Value := value }] }] } }

/-- Embedding of `ImageBuilder.WithCreationDate` (src/unnamed/part_001:483-489):
image level. -/
def ImageBuilder.WithCreationDate (ib : ImageBuilder) (date : String) (isApproximate : Bool) :
    ImageBuilder :=
  { ib with image := { ib.image with CreationDate :=
      (some { Value := date, IsApproximate := isApproximate }) } }

/-- Embedding of `ImageBuilder.WithParentalWarning` (src/unnamed/part_001:492-497). -/
def ImageBuilder.WithParentalWarning (ib : ImageBuilder) (warningType : String) : ImageBuilder :=
  ib.ensureTerritory.modifyCurrent (fun d =>
    { d with ParentalWarningType := d.ParentalWarningType ++ [warningType] })

/-- Embedding of `ImageBuilder.WithCLine` (src/unnamed/part_001:500-508). -/
def ImageBuilder.WithCLine (ib : ImageBuilder) (year : Int) (text : String) : ImageBuilder :=
  ib.ensureTerritory.modifyCurrent (fun d =>
    { d with CLine := d.CLine ++ [{ Year := year, CLineText := text }] })

/-- Embedding of `ImageBuilder.WithTechnicalDetails` (src/unnamed/part_001:514-524). -/
def ImageBuilder.WithTechnicalDetails (ib : ImageBuilder) (techRef fileURI : String) :
    ImageBuilder :=
  ib.ensureTerritory.modifyCurrent (fun d =>
    { d with TechnicalImageDetails := d.TechnicalImageDetails ++
        [{ TechnicalResourceDetailsReference := techRef, File := some { URI := fileURI } }] })

/-- Embedding of `ImageBuilder.AddImageDetailsByTerritory` from
src/pkg/ddex/builder.go:432-450. -/
def ImageBuilder.AddImageDetailsByTerritory (ib : ImageBuilder) (territoryCodes : List String) :
    ImageBuilder :=
  let codes := if territoryCodes = [] then ["Worldwide"] else territoryCodes
  { ib with
      image := { ib.image with ImageDetailsByTerritory :=
        ib.image.ImageDetailsByTerritory ++ [{ TerritoryCode := codes }] }
      currentTerritoryIndex := some ib.image.ImageDetailsByTerritory.length }

/-- One call on an `ImageBuilder` (src/unnamed/part_001 methods, plus
`AddImageDetailsByTerritory` of src/pkg/ddex/builder.go). -/
inductive ImageOp : Type
  | withTerritory (territoryCodes : List String)
  | withProprietaryId (ns value : String)
  | withCreationDate (date : String) (isApproximate : Bool)
  | withParentalWarning (warningType : String)
  | withCLine (year : Int) (text : String)
  | withTechnicalDetails (techRef fileURI : String)
  | addImageDetailsByTerritory (territoryCodes : List String)
deriving DecidableEq

/-- Dispatch of an `ImageOp` to the embedded method. -/
def applyImageOp (ib : ImageBuilder) : ImageOp → ImageBuilder
  | .withTerritory codes => ib.WithTerritory codes
  | .withProprietaryId n v => ib.WithProprietaryId n v
  | .withCreationDate d a => ib.WithCreationDate d a
  | .withParentalWarning w => ib.WithParentalWarning w
  | .withCLine y t => ib.WithCLine y t
  | .withTechnicalDetails r u => ib.WithTechnicalDetails r u
  | .addImageDetailsByTerritory codes => ib.AddImageDetailsByTerritory codes

/-- A chain of calls on an `ImageBuilder`, first call first. -/
def runImageOps (ib : ImageBuilder) (ops : List ImageOp) : ImageBuilder :=
  ops.foldl applyImageOp ib

/-! ## `ReleaseBuilder` and its resource-group sub-builder
(src/unnamed/part_001:531-892, plus `AddReleaseDetailsByTerritory` from
src/pkg/ddex/builder.go:537-555)

Besides the territory focus, the state records the target of the last
`ResourceGroupBuilder` handed out by `AddResourceGroup`: the pair
(territory-section index, group index) its `group` pointer refers to.
Group methods called without such a sub-builder cannot happen in Go (there
is no receiver to call them on); the embedding makes them no-ops then. -/

structure ReleaseBuilder where
  release : Release
  currentTerritoryIndex : Option Nat := none
  currentGroup : Option (Nat × Nat) := none
deriving DecidableEq

/-- The fresh `ReleaseBuilder` returned by `Builder.AddRelease`
(src/unnamed/part_001:126-142). -/
def freshReleaseBuilder (releaseRef releaseType : String) : ReleaseBuilder :=
  { release :=
      { ReleaseReference := releaseRef
        ReleaseType := if releaseType ≠ "" then [{ Value := releaseType }] else [] } }

/-- Embedding of `ReleaseBuilder.WithTitle` (src/unnamed/part_001:540-546):
release level. -/
def ReleaseBuilder.WithTitle (rb : ReleaseBuilder) (title subtitle : String) : ReleaseBuilder :=
  { rb with release := { rb.release with ReferenceTitle :=
      (some { TitleText := title, SubTitle := subtitle }) } }

/-- Embedding of `ReleaseBuilder.WithTerritory` from
src/unnamed/part_001:552-561: unlike the video/image variants it performs
no lookup and always appends a new section. -/
def ReleaseBuilder.WithTerritory (rb : ReleaseBuilder) (territoryCodes : List String) :
    ReleaseBuilder :=
  { rb with
      release := { rb.release with ReleaseDetailsByTerritory :=
        rb.release.ReleaseDetailsByTerritory ++ [{ TerritoryCode := territoryCodes }] }
      currentTerritoryIndex := some rb.release.ReleaseDetailsByTerritory.length }

/-- Embedding of `ReleaseBuilder.ensureTerritory` (src/unnamed/part_001:564-568). -/
def ReleaseBuilder.ensureTerritory (rb : ReleaseBuilder) : ReleaseBuilder :=
  match rb.currentTerritoryIndex with
  | none => rb.WithTerritory ["Worldwide"]
  | some _ => rb

/-- A write through `rb.currentTerritoryDetails`. -/
def ReleaseBuilder.modifyCurrent (rb : ReleaseBuilder)
    (f : ReleaseDetailsByTerritory → ReleaseDetailsByTerritory) : ReleaseBuilder :=
  match rb.currentTerritoryIndex with
  | some i =>
    { rb with release := { rb.release with ReleaseDetailsByTerritory :=
        (listUpdate rb.release.ReleaseDetailsByTerritory i f) } }
  | none => rb

/-- Embedding of `ReleaseBuilder.WithDisplayArtistName` (src/unnamed/part_001:571-581). -/
def ReleaseBuilder.WithDisplayArtistName (rb : ReleaseBuilder) (artistName languageCode : String) :
    ReleaseBuilder :=
  rb.ensureTerritory.modifyCurrent (fun d =>
    { d with DisplayArtistName := d.DisplayArtistName ++
        [{ FullName := artistName
           LanguageCode := if languageCode = "" then "en" else languageCode }] })

/-- Embedding of `ReleaseBuilder.WithArtist` (src/unnamed/part_001:584-594). -/
def ReleaseBuilder.WithArtist (rb : ReleaseBuilder) (partyRef role : String) (sequence : Int) :
    ReleaseBuilder :=
  rb.ensureTerritory.modifyCurrent (fun d =>
    if partyRef ≠ "" then
      { d with DisplayArtist := d.DisplayArtist ++
          [{ ArtistPartyReference := partyRef, DisplayArtistRole := role
             SequenceNumber := sequence }] }
    else d)

/-- Embedding of `ReleaseBuilder.WithLabel` (src/unnamed/part_001:597-607). -/
def ReleaseBuilder.WithLabel (rb : ReleaseBuilder) (labelName languageCode : String) :
    ReleaseBuilder :=
  rb.ensureTerritory.modifyCurrent (fun d =>
    { d with LabelName := d.LabelName ++
        [{ Value := labelName
           LanguageAndScriptCode := if languageCode = "" then "en" else languageCode }] })

/-- Embedding of `ReleaseBuilder.WithPLine` (src/unnamed/part_001:610-618):
release level. -/
def ReleaseBuilder.WithPLine (rb : ReleaseBuilder) (year : Int) (text : String) : ReleaseBuilder :=
  { rb with release := { rb.release with PLine :=
      rb.release.PLine ++ [{ Year := year, PLineText := text }] } }

/-- Embedding of `ReleaseBuilder.WithTerritoryPLine` (src/unnamed/part_001:621-628). -/
def ReleaseBuilder.WithTerritoryPLine (rb : ReleaseBuilder) (year : Int) (text : String) :
    ReleaseBuilder :=
  rb.ensureTerritory.modifyCurrent (fun d =>
    { d with PLine := d.PLine ++ [{ Year := year, PLineText := text }] })

/-- Embedding of `ReleaseBuilder.WithCLine` (src/unnamed/part_001:631-639):
release level. -/
def ReleaseBuilder.WithCLine (rb : ReleaseBuilder) (year : Int) (text : String) : ReleaseBuilder :=
  { rb with release := { rb.release with CLine :=
      rb.release.CLine ++ [{ Year := year, CLineText := text }] } }

/-- Embedding of `ReleaseBuilder.WithTerritoryCLine` (src/unnamed/part_001:642-649). -/
def ReleaseBuilder.WithTerritoryCLine (rb : ReleaseBuilder) (year : Int) (text : String) :
    ReleaseBuilder :=
  rb.ensureTerritory.modifyCurrent (fun d =>
    { d with CLine := d.CLine ++ [{ Year := year, CLineText := text }] })

/-- Embedding of `ReleaseBuilder.WithDuration` (src/unnamed/part_001:652-655):
release level. -/
def ReleaseBuilder.WithDuration (rb : ReleaseBuilder) (duration : String) : ReleaseBuilder :=
  { rb with release := { rb.release with Duration := duration } }

/-- Embedding of `ReleaseBuilder.WithReleaseDate` (src/unnamed/part_001:658-665). -/
def ReleaseBuilder.WithReleaseDate (rb : ReleaseBuilder) (date : String) : ReleaseBuilder :=
  rb.ensureTerritory.modifyCurrent (fun d =>
    { d with ReleaseDate := some { Value := date } })

/-- Embedding of `ReleaseBuilder.WithOriginalReleaseDate` (src/unnamed/part_001:668-675). -/
def ReleaseBuilder.WithOriginalReleaseDate (rb : ReleaseBuilder) (date : String) :
    ReleaseBuilder :=
  rb.ensureTerritory.modifyCurrent (fun d =>
    { d with OriginalReleaseDate := some { Value := date } })

/-- Embedding of `ReleaseBuilder.WithGenre` (src/unnamed/part_001:678-684). -/
def ReleaseBuilder.WithGenre (rb : ReleaseBuilder) (genreText : String) : ReleaseBuilder :=
  rb.ensureTerritory.modifyCurrent (fun d =>
    { d with Genre := d.Genre ++ [{ GenreText := genreText }] })

/-- Embedding of `ReleaseBuilder.WithGenreAndSubGenre` (src/unnamed/part_001:687-694). -/
def ReleaseBuilder.WithGenreAndSubGenre (rb : ReleaseBuilder) (genreText subGenre : String) :
    ReleaseBuilder :=
  rb.ensureTerritory.modifyCurrent (fun d =>
    { d with Genre := d.Genre ++ [{ GenreText := genreText, SubGenre := subGenre }] })

/-- Embedding of `ReleaseBuilder.WithParentalWarning` (src/unnamed/part_001:697-703). -/
def ReleaseBuilder.WithParentalWarning (rb : ReleaseBuilder) (warningType : String) :
    ReleaseBuilder :=
  rb.ensureTerritory.modifyCurrent (fun d =>
    { d with ParentalWarningType := d.ParentalWarningType ++ [{ Value := warningType }] })

/-- Embedding of `ReleaseBuilder.WithAvRating` (src/unnamed/part_001:706-714). -/
def ReleaseBuilder.WithAvRating (rb : ReleaseBuilder) (ratingText agencyValue : String) :
    ReleaseBuilder :=
  rb.ensureTerritory.modifyCurrent (fun d =>
    { d with AvRating := d.AvRating ++
        [{ RatingText := ratingText, RatingAgency := agencyValue }] })

/-- Embedding of `ReleaseBuilder.WithMadeForKids` (src/unnamed/part_001:717-719). -/
def ReleaseBuilder.WithMadeForKids (rb : ReleaseBuilder) : ReleaseBuilder :=
  rb.WithAvRating "MadeForKids" "UserDefined"

/-- Embedding of `ReleaseBuilder.WithMarketingComment` (src/unnamed/part_001:722-732). -/
def ReleaseBuilder.WithMarketingComment (rb : ReleaseBuilder) (comment languageCode : String) :
    ReleaseBuilder :=
  rb.ensureTerritory.modifyCurrent (fun d =>
    { d with MarketingComment :=
        (some { Value := comment
                LanguageAndScriptCode := if languageCode = "" then "en" else languageCode }) })

/-- Embedding of `ReleaseBuilder.WithKeywords` (src/unnamed/part_001:735-746). -/
def ReleaseBuilder.WithKeywords (rb : ReleaseBuilder) (keywords languageCode : String) :
    ReleaseBuilder :=
  rb.ensureTerritory.modifyCurrent (fun d =>
    { d with Keywords := d.Keywords ++
        [{ Value := keywords
           LanguageAndScriptCode := if languageCode = "" then "en" else languageCode }] })

/-- Embedding of `ReleaseBuilder.WithICPN` (src/unnamed/part_001:749-754):
release level. -/
def ReleaseBuilder.WithICPN (rb : ReleaseBuilder) (icpn : String) : ReleaseBuilder :=
  { rb with release := { rb.release with ReleaseId :=
      rb.release.ReleaseId ++ [{ ICPN := icpn }] } }

/-- Embedding of `ReleaseBuilder.WithISRC` (src/unnamed/part_001:758-763):
release level. -/
def ReleaseBuilder.WithISRC (rb : ReleaseBuilder) (isrc : String) : ReleaseBuilder :=
  { rb with release := { rb.release with ReleaseId :=
      rb.release.ReleaseId ++ [{ ISRC := isrc }] } }

/-- Embedding of `ReleaseBuilder.WithGRid` (src/unnamed/part_001:766-771):
release level. -/
def ReleaseBuilder.WithGRid (rb : ReleaseBuilder) (grid : String) : ReleaseBuilder :=
  { rb with release := { rb.release with ReleaseId :=
      rb.release.ReleaseId ++ [{ GRid := grid }] } }

/-- Embedding of `ReleaseBuilder.AddProprietaryId` (src/unnamed/part_001:774-786):
ensures a first `ReleaseId` entry exists, then appends to its proprietary
ids. -/
def ReleaseBuilder.AddProprietaryId (rb : ReleaseBuilder) (ns value : String) : ReleaseBuilder :=
  let ids := if rb.release.ReleaseId = [] then [({} : ReleaseId)] else rb.release.ReleaseId
  { rb with release := { rb.release with ReleaseId :=
      (listUpdate ids 0 (fun rid =>
        { rid with ProprietaryId := rid.ProprietaryId ++
            [{ Namespace := ns, Value := value }] })) } }

/-- Embedding of `ReleaseBuilder.AddReleaseResourceReference`
(src/unnamed/part_001:790-793): release level. -/
def ReleaseBuilder.AddReleaseResourceReference (rb : ReleaseBuilder) (resourceRef : String) :
    ReleaseBuilder :=
  { rb with release := { rb.release with ReleaseResourceReference :=
      rb.release.ReleaseResourceReference ++ [resourceRef] } }

/-- Embedding of `ReleaseBuilder.AddRelatedRelease` (src/unnamed/part_001:796-803). -/
def ReleaseBuilder.AddRelatedRelease (rb : ReleaseBuilder) (relationshipType : String)
    (releaseId : ReleaseId) : ReleaseBuilder :=
  rb.ensureTerritory.modifyCurrent (fun d =>
    { d with RelatedRelease := d.RelatedRelease ++
        [{ ReleaseRelationshipType := relationshipType, ReleaseId := releaseId }] })

/-- Embedding of `ReleaseBuilder.AddResourceGroup` (src/unnamed/part_001:806-826):
appends a group to the focused territory section and records the target of
the returned `ResourceGroupBuilder`. -/
def ReleaseBuilder.AddResourceGroup (rb : ReleaseBuilder) (titleText : String)
    (sequenceNumber : Int) : ReleaseBuilder :=
  let rb' := rb.ensureTerritory
  match rb'.currentTerritoryIndex with
  | some i =>
    let group : ResourceGroup :=
      { SequenceNumber := sequenceNumber
        AdditionalTitle := if titleText ≠ "" then { TitleText := titleText } else {} }
    let groupIdx := ((rb'.release.ReleaseDetailsByTerritory.getD i {}).ResourceGroup).length
    { rb' with
        release := { rb'.release with ReleaseDetailsByTerritory :=
          (listUpdate rb'.release.ReleaseDetailsByTerritory i (fun d =>
            { d with ResourceGroup := d.ResourceGroup ++ [group] })) }
        currentGroup := some (i, groupIdx) }
  | none => rb'

/-- A write through the `group` pointer of the last handed-out
`ResourceGroupBuilder`. -/
def ReleaseBuilder.modifyCurrentGroup (rb : ReleaseBuilder)
    (f : ResourceGroup → ResourceGroup) : ReleaseBuilder :=
  match rb.currentGroup with
  | some (i, j) =>
    { rb with release := { rb.release with ReleaseDetailsByTerritory :=
        (listUpdate rb.release.ReleaseDetailsByTerritory i (fun d =>
          { d with ResourceGroup := listUpdate d.ResourceGroup j f })) } }
  | none => rb

/-- Embedding of `ResourceGroupBuilder.AddContentItem`
(src/unnamed/part_001:840-848) acting on the recorded group. -/
def ReleaseBuilder.GroupAddContentItem (rb : ReleaseBuilder) (sequenceNumber : Int)
    (resourceRef : String) : ReleaseBuilder :=
  rb.modifyCurrentGroup (fun g =>
    { g with ResourceGroupContentItem := g.ResourceGroupContentItem ++
        [{ SequenceNumber := sequenceNumber, ReleaseResourceReference := resourceRef }] })

/-- Embedding of `ResourceGroupBuilder.AddLinkedResource`
(src/unnamed/part_001:851-863) acting on the recorded group: appends one
linked reference to the last content item, and does nothing when the group
has no content item yet. -/
def ReleaseBuilder.GroupAddLinkedResource (rb : ReleaseBuilder) (linkDescription resourceRef :
    String) : ReleaseBuilder :=
  rb.modifyCurrentGroup (fun g =>
    if g.ResourceGroupContentItem = [] then g
    else
      { g with ResourceGroupContentItem :=
          (listUpdate g.ResourceGroupContentItem (g.ResourceGroupContentItem.length - 1)
            (fun item =>
              { item with LinkedReleaseResourceReference :=
                  item.LinkedReleaseResourceReference ++
                    [{ LinkDescription := linkDescription, Value := resourceRef }] })) })

/-- Embedding of `ReleaseBuilder.AddReleaseDetailsByTerritory` from
src/pkg/ddex/builder.go:537-555: an empty code list is replaced by
`["Worldwide"]`, then a new section is appended and focused. -/
def ReleaseBuilder.AddReleaseDetailsByTerritory (rb : ReleaseBuilder)
    (territoryCodes : List String) : ReleaseBuilder :=
  let codes := if territoryCodes = [] then ["Worldwide"] else territoryCodes
  { rb with
      release := { rb.release with ReleaseDetailsByTerritory :=
        rb.release.ReleaseDetailsByTerritory ++ [{ TerritoryCode := codes }] }
      currentTerritoryIndex := some rb.release.ReleaseDetailsByTerritory.length }

/-- One call on a `ReleaseBuilder` or on a resource-group sub-builder it
handed out. -/
inductive ReleaseOp : Type
  | withTitle (title subtitle : String)
  | withTerritory (territoryCodes : List String)
  | withDisplayArtistName (artistName languageCode : String)
  | withArtist (partyRef role : String) (sequence : Int)
  | withLabel (labelName languageCode : String)
  | withPLine (year : Int) (text : String)
  | withTerritoryPLine (year : Int) (text : String)
  | withCLine (year : Int) (text : String)
  | withTerritoryCLine (year : Int) (text : String)
  | withDuration (duration : String)
  | withReleaseDate (date : String)
  | withOriginalReleaseDate (date : String)
  | withGenre (genreText : String)
  | withGenreAndSubGenre (genreText subGenre : String)
  | withParentalWarning (warningType : String)
  | withAvRating (ratingText agencyValue : String)
  | withMadeForKids
  | withMarketingComment (comment languageCode : String)
  | withKeywords (keywords languageCode : String)
  | withICPN (icpn : String)
  | withISRC (isrc : String)
  | withGRid (grid : String)
  | addProprietaryId (ns value : String)
  | addReleaseResourceReference (resourceRef : String)
  | addRelatedRelease (relationshipType : String) (releaseId : ReleaseId)
  | addResourceGroup (titleText : String) (sequenceNumber : Int)
  | groupAddContentItem (sequenceNumber : Int) (resourceRef : String)
  | groupAddLinkedResource (linkDescription resourceRef : String)
  | addReleaseDetailsByTerritory (territoryCodes : List String)
deriving DecidableEq

/-- Dispatch of a `ReleaseOp` to the embedded method. -/
def applyReleaseOp (rb : ReleaseBuilder) : ReleaseOp → ReleaseBuilder
  | .withTitle t s => rb.WithTitle t s
  | .withTerritory codes => rb.WithTerritory codes
  | .withDisplayArtistName a l => rb.WithDisplayArtistName a l
  | .withArtist p r n => rb.WithArtist p r n
  | .withLabel l lc => rb.WithLabel l lc
  | .withPLine y t => rb.WithPLine y t
  | .withTerritoryPLine y t => rb.WithTerritoryPLine y t
  | .withCLine y t => rb.WithCLine y t
  | .withTerritoryCLine y t => rb.WithTerritoryCLine y t
  | .withDuration d => rb.WithDuration d
  | .withReleaseDate d => rb.WithReleaseDate d
  | .withOriginalReleaseDate d => rb.WithOriginalReleaseDate d
  | .withGenre g => rb.WithGenre g
  | .withGenreAndSubGenre g s => rb.WithGenreAndSubGenre g s
  | .withParentalWarning w => rb.WithParentalWarning w
  | .withAvRating r a => rb.WithAvRating r a
  | .withMadeForKids => rb.WithMadeForKids
  | .withMarketingComment c l => rb.WithMarketingComment c l
  | .withKeywords k l => rb.WithKeywords k l
  | .withICPN i => rb.WithICPN i
  | .withISRC i => rb.WithISRC i
  | .withGRid g => rb.WithGRid g
  | .addProprietaryId n v => rb.AddProprietaryId n v
  | .addReleaseResourceReference r => rb.AddReleaseResourceReference r
  | .addRelatedRelease t rid => rb.AddRelatedRelease t rid
  | .addResourceGroup t n => rb.AddResourceGroup t n
  | .groupAddContentItem n r => rb.GroupAddContentItem n r
  | .groupAddLinkedResource l r => rb.GroupAddLinkedResource l r
  | .addReleaseDetailsByTerritory codes => rb.AddReleaseDetailsByTerritory codes

/-- A chain of calls on a `ReleaseBuilder`, first call first. -/
def runReleaseOps (rb : ReleaseBuilder) (ops : List ReleaseOp) : ReleaseBuilder :=
  ops.foldl applyReleaseOp rb

/-! ## Resource groups of the src/pkg/ddex variant (builder.go:819-860)

The package under src/pkg/ddex has its own resource-group types
(src/pkg/ddex/release.go:168-196): a content item carries a typed
`ReleaseResourceReference` composite rather than a plain string.
`AddContentItem`/`AddLinkedResource` of src/pkg/ddex/builder.go:828-855
act on the group the sub-builder points to; the embedding passes the group
value explicitly.  The group's `AdditionalTitle` field follows its use in
`AddResourceGroup` (builder.go:794-812). -/

namespace PkgDdex

structure ReleaseResourceReference where
  ReleaseResourceType : String := ""
  Value : String := ""
deriving DecidableEq

structure ResourceGroupContentItem where
  SequenceNumber : Int := 0
  ResourceType : String := ""
  ReleaseResourceReference : ReleaseResourceReference := {}
  LinkedReleaseResourceReference : List LinkedReleaseResourceReference := []
deriving DecidableEq

structure ResourceGroup where
  AdditionalTitle : AdditionalTitle := {}
  SequenceNumber : Int := 0
  ResourceGroupContentItem : List ResourceGroupContentItem := []
deriving DecidableEq

/-- Embedding of `ResourceGroupBuilder.AddContentItem` from
src/pkg/ddex/builder.go:828-840. -/
def AddContentItem (g : ResourceGroup) (sequenceNumber : Int)
    (resourceType resourceRef releaseResourceType : String) : ResourceGroup :=
  { g with ResourceGroupContentItem := g.ResourceGroupContentItem ++
      [{ SequenceNumber := sequenceNumber
         ResourceType := resourceType
         ReleaseResourceReference :=
           { ReleaseResourceType := releaseResourceType, Value := resourceRef } }] }

/-- Embedding of `ResourceGroupBuilder.AddLinkedResource` from
src/pkg/ddex/builder.go:843-855 (the same code appears in
src/unnamed/part_000:525-537): when at least one content item exists,
append one linked reference to the item at `len-1`; otherwise do nothing. -/
def AddLinkedResource (g : ResourceGroup) (linkDescription resourceRef : String) :
    ResourceGroup :=
  if g.ResourceGroupContentItem = [] then g
  else
    { g with ResourceGroupContentItem :=
        (listUpdate g.ResourceGroupContentItem (g.ResourceGroupContentItem.length - 1)
          (fun item =>
            { item with LinkedReleaseResourceReference :=
                item.LinkedReleaseResourceReference ++
                  [{ LinkDescription := linkDescription, Value := resourceRef }] })) }

end PkgDdex

/-! ## Specification-side predicates -/

/-- The territory choice of the DDEX schema as the claim states it: exactly
one of the inclusion list and the exclusion list is non-empty. -/
def exactlyOneTerritoryChoice (territoryCode excludedTerritoryCode : List String) : Prop :=
  (territoryCode ≠ [] ∧ excludedTerritoryCode = []) ∨
    (territoryCode = [] ∧ excludedTerritoryCode ≠ [])

/-- A video-builder call whose explicit `WithTerritory` argument (if any) is
a non-empty code list. -/
def goodVideoOp : VideoOp → Prop
  | .withTerritory codes => codes ≠ []
  | _ => True

/-- An image-builder call whose explicit `WithTerritory` argument (if any)
is a non-empty code list. -/
def goodImageOp : ImageOp → Prop
  | .withTerritory codes => codes ≠ []
  | _ => True

/-- A release-builder call whose explicit `WithTerritory` argument (if any)
is a non-empty code list. -/
def goodReleaseOp : ReleaseOp → Prop
  | .withTerritory codes => codes ≠ []
  | _ => True

/-- Invariant carried by every video territory section the builders create:
a non-empty inclusion list and an empty exclusion list. -/
def territoryOK (d : VideoDetailsByTerritory) : Prop :=
  d.TerritoryCode ≠ [] ∧ d.ExcludedTerritoryCode = []

/-- The invariant of `territoryOK` for image territory sections. -/
def territoryOKImg (d : ImageDetailsByTerritory) : Prop :=
  d.TerritoryCode ≠ [] ∧ d.ExcludedTerritoryCode = []

/-- The invariant of `territoryOK` for release territory sections. -/
def territoryOKRel (d : ReleaseDetailsByTerritory) : Prop :=
  d.TerritoryCode ≠ [] ∧ d.ExcludedTerritoryCode = []

/-- Whether `l` starts with `pat`. -/
def startsWithSeq : List Char → List Char → Bool
  | [], _ => true
  | _ :: _, [] => false
  | p :: ps, x :: xs => p == x && startsWithSeq ps xs

/-- Whether `pat` occurs contiguously anywhere in `l` (used to state that an
error message does or does not name a reference). -/
def containsSeq (pat : List Char) : List Char → Bool
  | [] => startsWithSeq pat []
  | x :: rest => startsWithSeq pat (x :: rest) || containsSeq pat rest

/-! ## Helper lemmas about decimal renderings -/

theorem natCharsAux_eq_digits (fuel : Nat) :
    ∀ n : Nat, n ≤ fuel →
      natCharsAux fuel n = ((Nat.digits 10 n).map (fun d => Char.ofNat (48 + d))).reverse := by
  induction fuel with
  | zero =>
    intro n hn
    interval_cases n
    simp [natCharsAux, Nat.digits_zero]
  | succ fuel ih =>
    intro n hn
    by_cases h0 : n = 0
    · subst h0
      simp [natCharsAux, Nat.digits_zero]
    · rw [natCharsAux, if_neg h0]
      have hdiv : n / 10 < n := Nat.div_lt_self (Nat.pos_of_ne_zero h0) (by norm_num)
      rw [ih (n / 10) (by omega)]
      rw [Nat.digits_def' (by norm_num : (1 : Nat) < 10) (Nat.pos_of_ne_zero h0)]
      simp

theorem natChars_eq_digits {n : Nat} (h : n ≠ 0) :
    natChars n = ((Nat.digits 10 n).map (fun d => Char.ofNat (48 + d))).reverse := by
  unfold natChars
  rw [if_neg h, natCharsAux_eq_digits n n le_rfl]

theorem natChars_isDigit (n : Nat) : ∀ c ∈ natChars n, c.isDigit = true := by
  intro c hc
  by_cases h0 : n = 0
  · subst h0
    unfold natChars at hc
    rw [if_pos rfl] at hc
    simp only [List.mem_singleton] at hc
    subst hc; decide
  · rw [natChars_eq_digits h0] at hc
    simp only [List.mem_reverse, List.mem_map] at hc
    obtain ⟨d, hd, rfl⟩ := hc
    have hlt : d < 10 := Nat.digits_lt_base (by norm_num) hd
    interval_cases d <;> decide

theorem natChars_ne_of_not_digit (n : Nat) {c : Char} (hc : c.isDigit = false) :
    ∀ x ∈ natChars n, x ≠ c := by
  intro x hx he
  subst he
  rw [natChars_isDigit n x hx] at hc
  exact Bool.noConfusion hc

theorem takeWhile_of_all {α : Type} (p : α → Bool) :
    ∀ l : List α, (∀ x ∈ l, p x = true) → l.takeWhile p = l := by
  intro l h
  induction l with
  | nil => rfl
  | cons a as ih =>
    rw [List.takeWhile_cons, h a (List.mem_cons_self a as), if_pos rfl,
      ih (fun x hx => h x (List.mem_cons_of_mem a hx))]

theorem foldr_mul_add (L : List Nat) :
    L.foldr (fun x y => y * 10 + x) 0 = Nat.ofDigits 10 L := by
  induction L with
  | nil => simp [Nat.ofDigits_nil]
  | cons d tl ih =>
    rw [List.foldr_cons, ih, Nat.ofDigits_cons]
    ring

theorem digitVal_render {d : Nat} (h : d < 10) : digitVal (Char.ofNat (48 + d)) = d := by
  interval_cases d <;> decide

theorem sscanfNat_natChars (n : Nat) : sscanfNat (natChars n) = n := by
  unfold sscanfNat
  rw [takeWhile_of_all _ _ (natChars_isDigit n)]
  by_cases h : n = 0
  · subst h; decide
  · rw [natChars_eq_digits h, List.foldl_reverse, List.foldr_map]
    have hcongr : ∀ L : List Nat, (∀ d ∈ L, d < 10) →
        L.foldr (fun x y => y * 10 + digitVal (Char.ofNat (48 + x))) 0 =
        L.foldr (fun x y => y * 10 + x) 0 := by
      intro L
      induction L with
      | nil => intro _; rfl
      | cons d tl ih =>
        intro hmem
        rw [List.foldr_cons, List.foldr_cons, ih (fun x hx => hmem x (List.mem_cons_of_mem d hx)),
          digitVal_render (hmem d (List.mem_cons_self d tl))]
    rw [hcongr _ (fun d hd => Nat.digits_lt_base (by norm_num) hd), foldr_mul_add,
      Nat.ofDigits_digits]

/-! ## Splitting at duration markers -/

theorem goIndex_append_cons (pre post : List Char) (c : Char) (h : ∀ x ∈ pre, x ≠ c) :
    goIndex (pre ++ c :: post) c = some pre.length := by
  induction pre with
  | nil => simp [goIndex]
  | cons a pre ih =>
    have ha : (a == c) = false := by
      simp only [beq_eq_false_iff_ne]
      exact h a (List.mem_cons_self a pre)
    rw [List.cons_append, goIndex, ha]
    simp only [Bool.false_eq_true, if_false]
    rw [ih (fun x hx => h x (List.mem_cons_of_mem a hx))]
    simp [List.length_cons]

theorem goIndex_none (l : List Char) (c : Char) (h : ∀ x ∈ l, x ≠ c) :
    goIndex l c = none := by
  induction l with
  | nil => rfl
  | cons a l ih =>
    have ha : (a == c) = false := by
      simp only [beq_eq_false_iff_ne]
      exact h a (List.mem_cons_self a l)
    rw [goIndex, ha]
    simp only [Bool.false_eq_true, if_false]
    rw [ih (fun x hx => h x (List.mem_cons_of_mem a hx))]
    rfl

theorem scanSegment_found (pre post : List Char) (c : Char) (h : ∀ x ∈ pre, x ≠ c) :
    scanSegment (pre ++ c :: post) c = (sscanfNat pre, post) := by
  unfold scanSegment
  rw [goIndex_append_cons pre post c h]
  dsimp only
  have htake : (pre ++ c :: post).take pre.length = pre := List.take_left pre (c :: post)
  have hdrop : (pre ++ c :: post).drop (pre.length + 1) = post := by
    have : pre ++ c :: post = (pre ++ [c]) ++ post := by simp
    rw [this]
    have hlen : pre.length + 1 = (pre ++ [c]).length := by simp
    rw [hlen, List.drop_left]
  rw [htake, hdrop]

theorem scanSegment_absent (l : List Char) (c : Char) (h : ∀ x ∈ l, x ≠ c) :
    scanSegment l c = (0, l) := by
  unfold scanSegment
  rw [goIndex_none l c h]

/-- Scanning one optional `<digits><marker>` segment followed by a
marker-free rest recovers the segment's value and the rest. -/
theorem scan_part (v : Nat) (mk : Char) (C : Prop) [Decidable C] (rest : List Char)
    (hmk : mk.isDigit = false) (hrest : ∀ x ∈ rest, x ≠ mk) (hv0 : ¬C → v = 0) :
    scanSegment ((if C then natChars v ++ [mk] else []) ++ rest) mk = (v, rest) := by
  by_cases hc : C
  · rw [if_pos hc]
    have : (natChars v ++ [mk]) ++ rest = natChars v ++ mk :: rest := by simp
    rw [this, scanSegment_found _ _ _ (natChars_ne_of_not_digit v hmk), sscanfNat_natChars]
  · rw [if_neg hc, List.nil_append, scanSegment_absent _ _ hrest, hv0 hc]

/-- Membership in an optional `<digits><marker>` segment never yields a
different non-digit marker. -/
theorem part_no_marker (v : Nat) (mk' mk : Char) (C : Prop) [Decidable C]
    (hne : mk' ≠ mk) (hmk : mk.isDigit = false) :
    ∀ x ∈ (if C then natChars v ++ [mk'] else []), x ≠ mk := by
  intro x hx
  by_cases hc : C
  · rw [if_pos hc] at hx
    rcases List.mem_append.mp hx with hx | hx
    · exact natChars_ne_of_not_digit v hmk x hx
    · simp only [List.mem_singleton] at hx
      subst hx; exact hne
  · rw [if_neg hc] at hx
    exact absurd hx (List.not_mem_nil x)

theorem scan_sec (v : Nat) (C : Prop) [Decidable C] (hv0 : ¬C → v = 0) :
    (scanSegment (if C then natChars v ++ ['S'] else []) 'S').1 = v := by
  have h := scan_part v 'S' C [] (by decide) (fun x hx => absurd hx (List.not_mem_nil x)) hv0
  rw [List.append_nil] at h
  rw [h]

theorem parseDuration_formatDuration_of_nonneg (s : Int) (hs : 0 ≤ s) :
    ParseDuration (FormatDuration s) = .ok s := by
  rcases eq_or_lt_of_le hs with h0 | hpos
  · rw [← h0]; decide
  · have hnot : ¬ s ≤ 0 := not_le.mpr hpos
    have hn : (s.toNat : Int) = s := Int.toNat_of_nonneg hs
    set n := s.toNat with hndef
    unfold FormatDuration
    rw [if_neg hnot]
    dsimp only
    set P1 := if 0 < n / 3600 then natChars (n / 3600) ++ ['H'] else [] with hP1
    set P2 := if 0 < n % 3600 / 60 then natChars (n % 3600 / 60) ++ ['M'] else [] with hP2
    set P3 := if 0 < n % 60 ∨ (n / 3600 = 0 ∧ n % 3600 / 60 = 0)
      then natChars (n % 60) ++ ['S'] else [] with hP3
    have hassoc : ['P', 'T'] ++ P1 ++ P2 ++ P3 = 'P' :: 'T' :: (P1 ++ (P2 ++ P3)) := by
      simp [List.append_assoc]
    rw [hassoc]
    unfold ParseDuration
    rw [if_pos (by simp)]
    have hno_S_nil : ∀ x ∈ ([] : List Char), x ≠ 'S' := fun x hx => absurd hx (List.not_mem_nil x)
    have hno_H : ∀ x ∈ P2 ++ P3, x ≠ 'H' := by
      intro x hx
      rcases List.mem_append.mp hx with hx | hx
      · exact part_no_marker _ 'M' 'H' _ (by decide) (by decide) x hx
      · exact part_no_marker _ 'S' 'H' _ (by decide) (by decide) x hx
    have hno_M : ∀ x ∈ P3, x ≠ 'M' :=
      fun x hx => part_no_marker _ 'S' 'M' _ (by decide) (by decide) x hx
    have e1 : scanSegment (P1 ++ (P2 ++ P3)) 'H' = (n / 3600, P2 ++ P3) := by
      rw [hP1]
      exact scan_part _ 'H' _ _ (by decide) hno_H (by omega)
    have e2 : scanSegment (P2 ++ P3) 'M' = (n % 3600 / 60, P3) := by
      rw [hP2]
      exact scan_part _ 'M' _ _ (by decide) hno_M (by omega)
    have e3 : (scanSegment P3 'S').1 = n % 60 := by
      rw [hP3]
      exact scan_sec _ _ (by omega)
    rw [List.drop_succ_cons, List.drop_succ_cons, List.drop_zero, e1]
    dsimp only
    rw [e2]
    dsimp only
    rw [e3]
    have harith : n / 3600 * 3600 + n % 3600 / 60 * 60 + n % 60 = n := by omega
    rw [harith, hn]

/-! ## Claim C6 -/

/-- C6: `FormatDuration(190)` returns `"PT3M10S"`, `ParseDuration("PT3M10S")`
returns 190 with a nil error, and for every non-negative integer `s`,
`ParseDuration(FormatDuration(s))` returns `s` with a nil error. -/
theorem claim_C6_duration_roundtrip :
    FormatDuration 190 = ['P', 'T', '3', 'M', '1', '0', 'S'] ∧
    ParseDuration ['P', 'T', '3', 'M', '1', '0', 'S'] = .ok 190 ∧
    ∀ s : Int, 0 ≤ s → ParseDuration (FormatDuration s) = .ok s := by
  refine ⟨by decide, by decide, ?_⟩
  exact parseDuration_formatDuration_of_nonneg

/-- Closed instance of C6's round-trip law at `s = 7322` (= PT2H2M2S). -/
theorem claim_C6_duration_roundtrip_witness :
    ParseDuration (FormatDuration 7322) = .ok 7322 :=
  claim_C6_duration_roundtrip.2.2 7322 (by decide)

/-! ## Claim C10 -/

/-- C10: `ParseDuration` returns a non-nil error exactly when its input does
not start with `"PT"`; any input starting with `"PT"` yields a nil error,
with unparseable or missing numeric segments contributing 0, so `"PT"` and
`"PTxyzS"` both yield `(0, nil)`. -/
theorem claim_C10_parse_error_only_on_bad_prefix :
    (∀ s : List Char, (ParseDuration s).isOk = decide (s.take 2 = ['P', 'T'])) ∧
    ParseDuration ['P', 'T'] = .ok 0 ∧
    ParseDuration ['P', 'T', 'x', 'y', 'z', 'S'] = .ok 0 := by
  refine ⟨?_, by decide, by decide⟩
  intro s
  unfold ParseDuration
  by_cases h : s.take 2 = ['P', 'T'] <;> simp [h, Except.isOk, Except.toBool]

/-! ## Claim C7 -/

theorem goUPCSum_eq_sum (l : List Char) :
    ∀ i : Nat, goUPCSum l i =
      ∑ j ∈ Finset.range l.length, (if (i + j) % 2 = 0 then 3 else 1) * digitVal (l.getD j '0') := by
  induction l with
  | nil => intro i; simp [goUPCSum]
  | cons c rest ih =>
    intro i
    rw [goUPCSum, ih (i + 1), List.length_cons, Finset.sum_range_succ']
    have harg : ∀ j : Nat, i + 1 + j = i + (j + 1) := by omega
    simp only [List.getD_cons_succ, List.getD_cons_zero, harg, Nat.add_zero]
    by_cases hp : i % 2 = 0 <;> simp [hp, Nat.mul_comm, Nat.add_comm]

theorem getD_take_eq (l : List Char) (n j : Nat) (hj : j < n) :
    (l.take n).getD j '0' = l.getD j '0' := by
  induction l generalizing n j with
  | nil => simp
  | cons c rest ih =>
    cases n with
    | zero => omega
    | succ n =>
      cases j with
      | zero => simp
      | succ j =>
        simp only [List.take_succ_cons, List.getD_cons_succ]
        exact ih n j (by omega)

theorem validateUPC_iff (l : List Char) : ValidateUPC l = true ↔ UPCSpec l := by
  unfold ValidateUPC UPCSpec
  by_cases hlen : l.length = 12
  · rw [if_neg (by simp [hlen])]
    by_cases hdig : l.all Char.isDigit
    · rw [if_neg (by simp [hdig])]
      have hsum : goUPCSum (l.take 11) 0 = upcSpecSum l := by
        rw [goUPCSum_eq_sum (l.take 11) 0]
        unfold upcSpecSum
        have hlen11 : (l.take 11).length = 11 := by
          rw [List.length_take]
          omega
        rw [hlen11]
        refine Finset.sum_congr rfl ?_
        intro j hj
        rw [Finset.mem_range] at hj
        rw [Nat.zero_add, getD_take_eq l 11 j hj]
      rw [hsum]
      simp only [beq_iff_eq, List.all_eq_true] at *
      constructor
      · intro h
        exact ⟨hlen, hdig, h.symm⟩
      · intro ⟨_, _, h⟩
        exact h.symm
    · rw [if_pos (by simp [hdig])]
      simp only [Bool.false_eq_true, false_iff]
      intro ⟨_, hd, _⟩
      exact hdig (List.all_eq_true.mpr hd)
  · rw [if_pos (by simp [hlen])]
    simp only [Bool.false_eq_true, false_iff]
    intro ⟨h, _, _⟩
    exact hlen h

theorem goEANSum_eq_sum (l : List Char) :
    ∀ i : Nat, goEANSum l i =
      ∑ j ∈ Finset.range l.length, (if (i + j) % 2 = 0 then 1 else 3) * digitVal (l.getD j '0') := by
  induction l with
  | nil => intro i; simp [goEANSum]
  | cons c rest ih =>
    intro i
    rw [goEANSum, ih (i + 1), List.length_cons, Finset.sum_range_succ']
    have harg : ∀ j : Nat, i + 1 + j = i + (j + 1) := by omega
    simp only [List.getD_cons_succ, List.getD_cons_zero, harg, Nat.add_zero]
    by_cases hp : i % 2 = 0 <;> simp [hp, Nat.mul_comm, Nat.add_comm]

theorem validateEAN_iff (l : List Char) : ValidateEAN l = true ↔ EANSpec l := by
  unfold ValidateEAN EANSpec
  by_cases hlen : l.length = 13
  · rw [if_neg (by simp [hlen])]
    by_cases hdig : l.all Char.isDigit
    · rw [if_neg (by simp [hdig])]
      have hsum : goEANSum (l.take 12) 0 = eanSpecSum l := by
        rw [goEANSum_eq_sum (l.take 12) 0]
        unfold eanSpecSum
        have hlen12 : (l.take 12).length = 12 := by
          rw [List.length_take]
          omega
        rw [hlen12]
        refine Finset.sum_congr rfl ?_
        intro j hj
        rw [Finset.mem_range] at hj
        rw [Nat.zero_add, getD_take_eq l 12 j hj]
      rw [hsum]
      simp only [beq_iff_eq, List.all_eq_true] at *
      constructor
      · intro h
        exact ⟨hlen, hdig, h.symm⟩
      · intro ⟨_, _, h⟩
        exact h.symm
    · rw [if_pos (by simp [hdig])]
      simp only [Bool.false_eq_true, false_iff]
      intro ⟨_, hd, _⟩
      exact hdig (List.all_eq_true.mpr hd)
  · rw [if_pos (by simp [hlen])]
    simp only [Bool.false_eq_true, false_iff]
    intro ⟨h, _, _⟩
    exact hlen h

/-- C7: `ValidateUPC` accepts exactly the 12-digit all-digit strings whose
final digit equals the mod-10 check digit computed with alternating weights
3,1,… over the first 11 digits, and `ValidateEAN` accepts exactly the
13-digit all-digit strings whose final digit equals the mod-10 check digit
computed with alternating weights 1,3,… over the first 12 digits; any other
length, non-digit character or mismatched check digit yields false.  In
particular `ValidateUPC("036000291452")` is true and
`ValidateUPC("036000291453")` is false. -/
theorem claim_C7_upc_ean_check_digits :
    (∀ l : List Char, ValidateUPC l = true ↔ UPCSpec l) ∧
    (∀ l : List Char, ValidateEAN l = true ↔ EANSpec l) ∧
    ValidateUPC ['0', '3', '6', '0', '0', '0', '2', '9', '1', '4', '5', '2'] = true ∧
    ValidateUPC ['0', '3', '6', '0', '0', '0', '2', '9', '1', '4', '5', '3'] = false :=
  ⟨validateUPC_iff, validateEAN_iff, by decide, by decide⟩

/-! ## Claim C9 -/

/-- C9: the `DateTime` codec treats the zero-value timestamp as absent in
both directions — encoding a zero `DateTime` emits no element at all,
encoding a non-zero one emits its RFC-3339 rendering, decoding an absent
element leaves the field at the zero value without error, and a present
element that fails to parse is an error. -/
theorem claim_C9_datetime_zero_is_absent :
    DateTimeMarshalXML { Time := { val := 0 } } = none ∧
    (∀ t : GoTime, t.val ≠ 0 → DateTimeMarshalXML { Time := t } = some (rfc3339Render t)) ∧
    decodeDateTimeField none = .ok { Time := { val := 0 } } ∧
    (∀ (s e : List Char), rfc3339Parse s = .error e →
      decodeDateTimeField (some s) = .error e) := by
  refine ⟨rfl, ?_, rfl, ?_⟩
  · intro t h
    unfold DateTimeMarshalXML
    rw [if_neg h]
  · intro s e h
    unfold decodeDateTimeField DateTimeUnmarshalXML
    dsimp only
    rw [h]

/-- Closed instance of C9 at a non-zero instant and at an unparseable
element. -/
theorem claim_C9_datetime_zero_is_absent_witness :
    DateTimeMarshalXML { Time := { val := 5 } } = some (rfc3339Render { val := 5 }) ∧
    decodeDateTimeField (some ['x']) =
      .error ("parsing time: invalid RFC 3339 value".toList) :=
  ⟨claim_C9_datetime_zero_is_absent.2.1 { val := 5 } (by decide),
   claim_C9_datetime_zero_is_absent.2.2.2 ['x'] _ (by decide)⟩

/-! ## Claim C8 -/

/-- C8: for every builder state, `WithMessageHeader` replaces the message
header wholesale — exactly the given ids, exactly one sender identity built
from the given DPID and name, the creation timestamp observed at call time,
and an empty recipient list (previous recipients are discarded) — while
leaving the resource, release and deal lists unchanged. -/
theorem claim_C8_withMessageHeader_replaces_wholesale :
    ∀ (b : Builder) (messageId threadId senderDPID senderName : String) (now : GoTime),
      (WithMessageHeader b messageId threadId senderDPID senderName now).Message.MessageHeader
        = some
          { MessageThreadId := threadId
            MessageId := messageId
            MessageFileName := ""
            MessageSender := some (
              { PartyId := [{ Value := senderDPID, Namespace := "" }]
                PartyName := [{ FullName := senderName, FullNameAscii := ""
                                LanguageCode := "", NameType := "" }]
                TradingName := "" })
            SentOnBehalfOf := ""
            MessageRecipient := []
            MessageCreatedDateTime := some { Time := now }
            MessageControlType := ""
            Comment := "" } ∧
      (WithMessageHeader b messageId threadId senderDPID senderName now).Message.ResourceList
        = b.Message.ResourceList ∧
      (WithMessageHeader b messageId threadId senderDPID senderName now).Message.ReleaseList
        = b.Message.ReleaseList ∧
      (WithMessageHeader b messageId threadId senderDPID senderName now).Message.DealList
        = b.Message.DealList := by
  intro b messageId threadId senderDPID senderName now
  exact ⟨rfl, rfl, rfl, rfl⟩


theorem listUpdate_append_last {α : Type} (pre : List α) (a : α) (f : α → α) :
    listUpdate (pre ++ [a]) ((pre ++ [a]).length - 1) f = pre ++ [f a] := by
  induction pre with
  | nil => rfl
  | cons x pre ih =>
    calc listUpdate ((x :: pre) ++ [a]) (((x :: pre) ++ [a]).length - 1) f
        = listUpdate (x :: (pre ++ [a])) (pre.length + 1) f := by
          rw [List.cons_append]
          congr 1
          simp
      _ = x :: listUpdate (pre ++ [a]) pre.length f := rfl
      _ = x :: listUpdate (pre ++ [a]) ((pre ++ [a]).length - 1) f := by
          congr 2
          simp
      _ = x :: (pre ++ [f a]) := by rw [ih]


/-! ## Claim C2 -/

/-- C2 (amended): on a header-complete message with one release and an empty
deal list, `Validate` returns the fixed error "at least one Deal is
required" — non-nil, but not naming the release reference — and after the
deal list holds one `ReleaseDeal` whose `DealReleaseReference` matches the
release, `Validate` returns nil. -/
theorem claim_C2_amended_validate_deal_errors :
    ∀ (m : NewReleaseMessage) (hdr : MessageHeader) (rel : Release) (rd : ReleaseDeal),
      m.MessageHeader = some hdr →
      hdr.MessageId ≠ "" →
      hdr.MessageThreadId ≠ "" →
      hdr.MessageSender ≠ none →
      hdr.MessageRecipient ≠ [] →
      m.ReleaseList = some { Release := [rel] } →
      (Validate { m with DealList := some { ReleaseDeal := [] } }
          = some "at least one Deal is required") ∧
      (rd.DealReleaseReference = rel.ReleaseReference →
        Validate { m with DealList := some { ReleaseDeal := [rd] } } = none) := by
  intro m hdr rel rd hhdr hmid htid hsnd hrcp hrel
  have hsnd' : hdr.MessageSender.isNone = false := by
    cases h : hdr.MessageSender with
    | none => exact absurd h hsnd
    | some _ => rfl
  constructor
  · show Validate _ = _
    unfold Validate
    dsimp only
    rw [hhdr]
    dsimp only
    rw [if_neg hmid, if_neg htid, if_neg (by rw [hsnd']; exact Bool.false_ne_true),
      if_neg hrcp, hrel]
    dsimp only
    rw [if_neg (by simp), if_pos rfl]
  · intro hmatch
    show Validate _ = _
    unfold Validate
    dsimp only
    rw [hhdr]
    dsimp only
    rw [if_neg hmid, if_neg htid, if_neg (by rw [hsnd']; exact Bool.false_ne_true),
      if_neg hrcp, hrel]
    dsimp only
    rw [if_neg (by simp), if_neg (by simp)]
    have hany : ([rd].any fun rd' => rd'.DealReleaseReference == rel.ReleaseReference) = true := by
      simp [hmatch]
    simp [List.find?, hany]

/-- Counterexample to C2 as stated: a header-complete message with one
release "R1" and an empty deal list makes `Validate` return the fixed
message "at least one Deal is required", which does not contain "R1". -/
theorem claim_C2_counterexample_error_does_not_name_R1 :
    Validate
      { MessageHeader := some (
          { MessageId := "M1", MessageThreadId := "T1"
            MessageSender := some {}, MessageRecipient := [{}] })
        ReleaseList := some { Release := [{ ReleaseReference := "R1" }] }
        DealList := some { ReleaseDeal := [] } }
      = some "at least one Deal is required" ∧
    containsSeq "R1".toList "at least one Deal is required".toList = false := by
  constructor
  · decide
  · decide

/-- Closed instance of the amended C2 at a concrete message. -/
theorem claim_C2_amended_validate_deal_errors_witness :
    (Validate
        { MessageHeader := some (
            { MessageId := "M1", MessageThreadId := "T1"
              MessageSender := some {}, MessageRecipient := [{}] })
          ReleaseList := some { Release := [{ ReleaseReference := "R1" }] }
          DealList := some { ReleaseDeal := [] } }
      = some "at least one Deal is required") ∧
    Validate
        { MessageHeader := some (
            { MessageId := "M1", MessageThreadId := "T1"
              MessageSender := some {}, MessageRecipient := [{}] })
          ReleaseList := some { Release := [{ ReleaseReference := "R1" }] }
          DealList := some { ReleaseDeal :=
            [{ DealReleaseReference := "R1", Deal := [{}] }] } }
      = none := by
  have h := claim_C2_amended_validate_deal_errors
    { MessageHeader := some (
        { MessageId := "M1", MessageThreadId := "T1"
          MessageSender := some {}, MessageRecipient := [{}] })
      ReleaseList := some { Release := [{ ReleaseReference := "R1" }] }
      DealList := some { ReleaseDeal := [] } }
    { MessageId := "M1", MessageThreadId := "T1"
      MessageSender := some {}, MessageRecipient := [{}] }
    { ReleaseReference := "R1" }
    { DealReleaseReference := "R1", Deal := [{}] }
    rfl (by decide) (by decide) (by decide) (by decide) rfl
  exact ⟨h.1, h.2 rfl⟩

/-! ## Claim C5 -/

/-- C5: `AddLinkedResource` on a group with an empty content-item list is a
no-op that returns normally (the group is unchanged); on a non-empty list
it appends exactly one linked-release-resource reference to the most
recently added content item, leaving everything else unchanged. -/
theorem claim_C5_addLinkedResource_noop_or_append_last :
    ∀ (g : PkgDdex.ResourceGroup) (linkDescription resourceRef : String),
      (g.ResourceGroupContentItem = [] →
        PkgDdex.AddLinkedResource g linkDescription resourceRef = g) ∧
      (∀ (pre : List PkgDdex.ResourceGroupContentItem) (last : PkgDdex.ResourceGroupContentItem),
        g.ResourceGroupContentItem = pre ++ [last] →
        PkgDdex.AddLinkedResource g linkDescription resourceRef =
          { g with ResourceGroupContentItem := pre ++
              [{ last with LinkedReleaseResourceReference :=
                  last.LinkedReleaseResourceReference ++
                    [{ LinkDescription := linkDescription, Value := resourceRef }] }] }) := by
  intro g linkDescription resourceRef
  constructor
  · intro h
    unfold PkgDdex.AddLinkedResource
    rw [if_pos h]
  · intro pre last hg
    unfold PkgDdex.AddLinkedResource
    rw [if_neg (by simp [hg])]
    rw [hg, listUpdate_append_last]

/-- Closed instance of C5 at an empty and at a one-item group. -/
theorem claim_C5_addLinkedResource_noop_or_append_last_witness :
    PkgDdex.AddLinkedResource { SequenceNumber := 1 } "desc" "A2" =
      { SequenceNumber := 1 } ∧
    PkgDdex.AddLinkedResource
        { ResourceGroupContentItem := [{ SequenceNumber := 1 }] } "desc" "A2" =
      { ResourceGroupContentItem :=
          [{ SequenceNumber := 1, LinkedReleaseResourceReference :=
              [{ LinkDescription := "desc", Value := "A2" }] }] } := by
  constructor
  · exact (claim_C5_addLinkedResource_noop_or_append_last
      { SequenceNumber := 1 } "desc" "A2").1 rfl
  · have h := (claim_C5_addLinkedResource_noop_or_append_last
      { ResourceGroupContentItem := [{ SequenceNumber := 1 }] } "desc" "A2").2
      [] { SequenceNumber := 1 } rfl
    simpa using h

/-! ## Claim C1 -/

theorem findTerritoryIdx_eq_findIdx (sections : List VideoDetailsByTerritory) (c0 : String) :
    findTerritoryIdx sections c0 =
      sections.findIdx? (fun d => d.TerritoryCode.head? == some c0) := by
  induction sections with
  | nil => rfl
  | cons d rest ih =>
    rw [findTerritoryIdx, List.findIdx?_cons]
    by_cases hc : d.TerritoryCode ≠ [] ∧ d.TerritoryCode.getD 0 "" = c0
    · rw [if_pos hc]
      obtain ⟨hne, heq⟩ := hc
      have hp : (d.TerritoryCode.head? == some c0) = true := by
        cases htc : d.TerritoryCode with
        | nil => exact absurd htc hne
        | cons a tl =>
          rw [htc] at heq
          rw [List.getD_cons_zero] at heq
          rw [List.head?_cons]
          simp [heq]
      rw [hp, if_pos rfl]
    · rw [if_neg hc]
      have hp : (d.TerritoryCode.head? == some c0) = false := by
        cases htc : d.TerritoryCode with
        | nil => rfl
        | cons a tl =>
          rw [htc] at hc
          simp only [ne_eq, List.getD_cons_zero, not_and] at hc
          have hane : ¬ a = c0 := hc (by simp)
          rw [List.head?_cons]
          simp [hane]
      rw [hp]
      simp only [Bool.false_eq_true, if_false]
      rw [ih, List.findIdx?_succ]


/-- C1: for a non-empty code list, `VideoBuilder.WithTerritory` is a
lookup-or-create keyed on the first code only: when some existing section's
first territory code equals `codes[0]` the focus switches to the first such
section and the video is unchanged; otherwise exactly one new section with
`TerritoryCode = codes` is appended and becomes the focus. -/
theorem claim_C1_withTerritory_lookup_or_create :
    ∀ (vb : VideoBuilder) (codes : List String), codes ≠ [] →
      match vb.video.VideoDetailsByTerritory.findIdx?
          (fun d => d.TerritoryCode.head? == codes.head?) with
      | some i =>
          (vb.WithTerritory codes).video = vb.video ∧
          (vb.WithTerritory codes).currentTerritoryIndex = some i
      | none =>
          (vb.WithTerritory codes).video.VideoDetailsByTerritory
            = vb.video.VideoDetailsByTerritory ++ [{ TerritoryCode := codes }] ∧
          (vb.WithTerritory codes).currentTerritoryIndex
            = some vb.video.VideoDetailsByTerritory.length := by
  intro vb codes hcodes
  have hhead : codes.head? = some (codes.getD 0 "") := by
    cases codes with
    | nil => exact absurd rfl hcodes
    | cons a tl => simp [List.getD]
  rw [hhead]
  unfold VideoBuilder.WithTerritory
  rw [if_pos hcodes, ← findTerritoryIdx_eq_findIdx]
  cases hfind : findTerritoryIdx vb.video.VideoDetailsByTerritory (codes.getD 0 "") with
  | some i =>
    dsimp only
    exact ⟨rfl, rfl⟩
  | none =>
    dsimp only
    exact ⟨rfl, rfl⟩

/-- Closed instance of C1: `WithTerritory(["US","CA"])` followed by
`WithTerritory(["US"])` focuses the existing section (index 0) and leaves
the video unchanged; the first call appended the section. -/
theorem claim_C1_withTerritory_lookup_or_create_witness :
    ((freshVideoBuilder "A1" "ShortFormMusicalWorkVideo").WithTerritory
        ["US", "CA"]).WithTerritory ["US"] =
      { video := { ResourceReference := "A1", Type' := "ShortFormMusicalWorkVideo"
                   VideoDetailsByTerritory := [{ TerritoryCode := ["US", "CA"] }] }
        currentTerritoryIndex := some 0 } := by
  have h := claim_C1_withTerritory_lookup_or_create
    ((freshVideoBuilder "A1" "ShortFormMusicalWorkVideo").WithTerritory ["US", "CA"])
    ["US"] (by decide)
  rw [show (((freshVideoBuilder "A1" "ShortFormMusicalWorkVideo").WithTerritory
      ["US", "CA"]).video.VideoDetailsByTerritory.findIdx?
        (fun d => d.TerritoryCode.head? == (["US"] : List String).head?)) = some 0 from by decide]
    at h
  obtain ⟨hv, hf⟩ := h
  cases hb : ((freshVideoBuilder "A1" "ShortFormMusicalWorkVideo").WithTerritory
      ["US", "CA"]).WithTerritory ["US"] with
  | mk video idx =>
    rw [hb] at hv hf
    simp only at hv hf
    rw [hv, hf]
    decide

/-! ## Claim C3 -/

/-- C3: on a fresh video builder with no prior `WithTerritory` call, a
territory-scoped setter such as `WithParentalWarning` auto-creates the
default territory: afterwards the video has exactly one
`VideoDetailsByTerritory` section, its `TerritoryCode` is `["Worldwide"]`,
and it contains the added parental-warning value. -/
theorem claim_C3_default_worldwide_territory :
    ∀ (resourceRef videoType warningType : String),
      ((freshVideoBuilder resourceRef videoType).WithParentalWarning
          warningType).video.VideoDetailsByTerritory
        = [{ TerritoryCode := ["Worldwide"], ParentalWarningType := [warningType] }] := by
  intro r t w
  rfl


/-- Counterexample to C4 as stated: `WithTerritory([])` on a fresh video
builder appends a section whose `TerritoryCode` and
`ExcludedTerritoryCode` are both empty, violating the
exactly-one-non-empty choice. -/
theorem claim_C4_counterexample_withTerritory_empty :
    ((freshVideoBuilder "A1" "ShortFormMusicalWorkVideo").WithTerritory
        []).video.VideoDetailsByTerritory = [{ TerritoryCode := [] }] ∧
    ¬ exactlyOneTerritoryChoice
        ((((freshVideoBuilder "A1" "ShortFormMusicalWorkVideo").WithTerritory
            []).video.VideoDetailsByTerritory.getD 0 {}).TerritoryCode)
        ((((freshVideoBuilder "A1" "ShortFormMusicalWorkVideo").WithTerritory
            []).video.VideoDetailsByTerritory.getD 0 {}).ExcludedTerritoryCode) := by
  constructor
  · rfl
  · intro h
    rcases h with ⟨h1, _⟩ | ⟨_, h2⟩
    · exact h1 rfl
    · exact h2 rfl


/-! ## Claim C4: invariant machinery -/

theorem listUpdate_forall {α : Type} (P : α → Prop) (f : α → α)
    (hf : ∀ y, P y → P (f y)) :
    ∀ (l : List α) (i : Nat), (∀ x ∈ l, P x) → ∀ x ∈ listUpdate l i f, P x := by
  intro l
  induction l with
  | nil => intro i _ x hx; exact absurd hx (List.not_mem_nil x)
  | cons a as ih =>
    intro i h x hx
    cases i with
    | zero =>
      rw [listUpdate] at hx
      rcases List.mem_cons.mp hx with rfl | hx
      · exact hf a (h a (List.mem_cons_self a as))
      · exact h x (List.mem_cons_of_mem a hx)
    | succ n =>
      rw [listUpdate] at hx
      rcases List.mem_cons.mp hx with rfl | hx
      · exact h x (List.mem_cons_self x as)
      · exact ih n (fun y hy => h y (List.mem_cons_of_mem a hy)) x hx

theorem videoWithTerritory_ok {vb : VideoBuilder} (codes : List String) (hcodes : codes ≠ [])
    (h : ∀ d ∈ vb.video.VideoDetailsByTerritory, territoryOK d) :
    ∀ d ∈ (vb.WithTerritory codes).video.VideoDetailsByTerritory, territoryOK d := by
  unfold VideoBuilder.WithTerritory
  rw [if_pos hcodes]
  cases hfind : findTerritoryIdx vb.video.VideoDetailsByTerritory (codes.getD 0 "") with
  | some i => exact h
  | none =>
    dsimp only
    intro d hd
    rcases List.mem_append.mp hd with hd | hd
    · exact h d hd
    · simp only [List.mem_singleton] at hd
      subst hd
      exact ⟨hcodes, rfl⟩

theorem videoEnsure_ok {vb : VideoBuilder}
    (h : ∀ d ∈ vb.video.VideoDetailsByTerritory, territoryOK d) :
    ∀ d ∈ vb.ensureTerritory.video.VideoDetailsByTerritory, territoryOK d := by
  unfold VideoBuilder.ensureTerritory
  cases vb.currentTerritoryIndex with
  | none => exact videoWithTerritory_ok ["Worldwide"] (by simp) h
  | some i => exact h

theorem videoModify_ok {vb : VideoBuilder} {f : VideoDetailsByTerritory → VideoDetailsByTerritory}
    (hf : ∀ d, territoryOK d → territoryOK (f d))
    (h : ∀ d ∈ vb.video.VideoDetailsByTerritory, territoryOK d) :
    ∀ d ∈ (vb.modifyCurrent f).video.VideoDetailsByTerritory, territoryOK d := by
  unfold VideoBuilder.modifyCurrent
  cases vb.currentTerritoryIndex with
  | none => exact h
  | some i => exact listUpdate_forall territoryOK f hf vb.video.VideoDetailsByTerritory i h

theorem applyVideoOp_ok {vb : VideoBuilder} (op : VideoOp) (hop : goodVideoOp op)
    (h : ∀ d ∈ vb.video.VideoDetailsByTerritory, territoryOK d) :
    ∀ d ∈ (applyVideoOp vb op).video.VideoDetailsByTerritory, territoryOK d := by
  cases op with
  | withTerritory codes => exact videoWithTerritory_ok codes hop h
  | withTitle t s =>
    exact videoModify_ok (fun d hd => hd) (videoEnsure_ok h)
  | withDisplayArtistName a l =>
    exact videoModify_ok (fun d hd => hd) (videoEnsure_ok h)
  | withArtist p r n =>
    refine videoModify_ok ?_ (videoEnsure_ok h)
    intro d hd
    dsimp only
    split <;> exact hd
  | withContributor p rs n =>
    refine videoModify_ok ?_ (videoEnsure_ok h)
    intro d hd
    dsimp only
    split <;> exact hd
  | withRightsController p pct ts =>
    exact videoModify_ok (fun d hd => hd) (videoEnsure_ok h)
  | withDuration d => exact h
  | withCreationDate d a => exact h
  | withParentalWarning w =>
    exact videoModify_ok (fun d hd => hd) (videoEnsure_ok h)
  | withPLine y t =>
    exact videoModify_ok (fun d hd => hd) (videoEnsure_ok h)
  | withCLine y t =>
    exact videoModify_ok (fun d hd => hd) (videoEnsure_ok h)
  | withGenre g s =>
    exact videoModify_ok (fun d hd => hd) (videoEnsure_ok h)
  | withTechnicalDetails r u =>
    exact videoModify_ok (fun d hd => hd) (videoEnsure_ok h)
  | withISRC i => exact h
  | addKeywords ks =>
    exact videoModify_ok (fun d hd => hd) (videoEnsure_ok h)
  | addKeywordsWithLanguage l ks =>
    exact videoModify_ok (fun d hd => hd) (videoEnsure_ok h)
  | addProprietaryId n v => exact h
  | addVideoDetailsByTerritory codes =>
    intro d hd
    simp only [applyVideoOp, VideoBuilder.AddVideoDetailsByTerritory] at hd
    rcases List.mem_append.mp hd with hd | hd
    · exact h d hd
    · simp only [List.mem_singleton] at hd
      subst hd
      refine ⟨?_, rfl⟩
      dsimp only
      split <;> simp_all

theorem runVideoOps_ok (ops : List VideoOp) (hops : ∀ op ∈ ops, goodVideoOp op) :
    ∀ (vb : VideoBuilder), (∀ d ∈ vb.video.VideoDetailsByTerritory, territoryOK d) →
      ∀ d ∈ (runVideoOps vb ops).video.VideoDetailsByTerritory, territoryOK d := by
  induction ops with
  | nil => intro vb h; exact h
  | cons op ops ih =>
    intro vb h
    exact ih (fun o ho => hops o (List.mem_cons_of_mem op ho)) (applyVideoOp vb op)
      (applyVideoOp_ok op (hops op (List.mem_cons_self op ops)) h)


theorem imageWithTerritory_ok {ib : ImageBuilder} (codes : List String) (hcodes : codes ≠ [])
    (h : ∀ d ∈ ib.image.ImageDetailsByTerritory, territoryOKImg d) :
    ∀ d ∈ (ib.WithTerritory codes).image.ImageDetailsByTerritory, territoryOKImg d := by
  unfold ImageBuilder.WithTerritory
  rw [if_pos hcodes]
  cases hfind : findImageTerritoryIdx ib.image.ImageDetailsByTerritory (codes.getD 0 "") with
  | some i => exact h
  | none =>
    dsimp only
    intro d hd
    rcases List.mem_append.mp hd with hd | hd
    · exact h d hd
    · simp only [List.mem_singleton] at hd
      subst hd
      exact ⟨hcodes, rfl⟩

theorem imageEnsure_ok {ib : ImageBuilder}
    (h : ∀ d ∈ ib.image.ImageDetailsByTerritory, territoryOKImg d) :
    ∀ d ∈ ib.ensureTerritory.image.ImageDetailsByTerritory, territoryOKImg d := by
  unfold ImageBuilder.ensureTerritory
  cases ib.currentTerritoryIndex with
  | none => exact imageWithTerritory_ok ["Worldwide"] (by simp) h
  | some i => exact h

theorem imageModify_ok {ib : ImageBuilder} {f : ImageDetailsByTerritory → ImageDetailsByTerritory}
    (hf : ∀ d, territoryOKImg d → territoryOKImg (f d))
    (h : ∀ d ∈ ib.image.ImageDetailsByTerritory, territoryOKImg d) :
    ∀ d ∈ (ib.modifyCurrent f).image.ImageDetailsByTerritory, territoryOKImg d := by
  unfold ImageBuilder.modifyCurrent
  cases ib.currentTerritoryIndex with
  | none => exact h
  | some i => exact listUpdate_forall territoryOKImg f hf ib.image.ImageDetailsByTerritory i h

theorem applyImageOp_ok {ib : ImageBuilder} (op : ImageOp) (hop : goodImageOp op)
    (h : ∀ d ∈ ib.image.ImageDetailsByTerritory, territoryOKImg d) :
    ∀ d ∈ (applyImageOp ib op).image.ImageDetailsByTerritory, territoryOKImg d := by
  cases op with
  | withTerritory codes => exact imageWithTerritory_ok codes hop h
  | withProprietaryId n v => exact h
  | withCreationDate d a => exact h
  | withParentalWarning w => exact imageModify_ok (fun d hd => hd) (imageEnsure_ok h)
  | withCLine y t => exact imageModify_ok (fun d hd => hd) (imageEnsure_ok h)
  | withTechnicalDetails r u => exact imageModify_ok (fun d hd => hd) (imageEnsure_ok h)
  | addImageDetailsByTerritory codes =>
    intro d hd
    simp only [applyImageOp, ImageBuilder.AddImageDetailsByTerritory] at hd
    rcases List.mem_append.mp hd with hd | hd
    · exact h d hd
    · simp only [List.mem_singleton] at hd
      subst hd
      refine ⟨?_, rfl⟩
      dsimp only
      split <;> simp_all

theorem runImageOps_ok (ops : List ImageOp) (hops : ∀ op ∈ ops, goodImageOp op) :
    ∀ (ib : ImageBuilder), (∀ d ∈ ib.image.ImageDetailsByTerritory, territoryOKImg d) →
      ∀ d ∈ (runImageOps ib ops).image.ImageDetailsByTerritory, territoryOKImg d := by
  induction ops with
  | nil => intro ib h; exact h
  | cons op ops ih =>
    intro ib h
    exact ih (fun o ho => hops o (List.mem_cons_of_mem op ho)) (applyImageOp ib op)
      (applyImageOp_ok op (hops op (List.mem_cons_self op ops)) h)


theorem releaseWithTerritory_ok {rb : ReleaseBuilder} (codes : List String) (hcodes : codes ≠ [])
    (h : ∀ d ∈ rb.release.ReleaseDetailsByTerritory, territoryOKRel d) :
    ∀ d ∈ (rb.WithTerritory codes).release.ReleaseDetailsByTerritory, territoryOKRel d := by
  unfold ReleaseBuilder.WithTerritory
  intro d hd
  dsimp only at hd
  rcases List.mem_append.mp hd with hd | hd
  · exact h d hd
  · simp only [List.mem_singleton] at hd
    subst hd
    exact ⟨hcodes, rfl⟩

theorem releaseEnsure_ok {rb : ReleaseBuilder}
    (h : ∀ d ∈ rb.release.ReleaseDetailsByTerritory, territoryOKRel d) :
    ∀ d ∈ rb.ensureTerritory.release.ReleaseDetailsByTerritory, territoryOKRel d := by
  unfold ReleaseBuilder.ensureTerritory
  cases rb.currentTerritoryIndex with
  | none => exact releaseWithTerritory_ok ["Worldwide"] (by simp) h
  | some i => exact h

theorem releaseModify_ok {rb : ReleaseBuilder}
    {f : ReleaseDetailsByTerritory → ReleaseDetailsByTerritory}
    (hf : ∀ d, territoryOKRel d → territoryOKRel (f d))
    (h : ∀ d ∈ rb.release.ReleaseDetailsByTerritory, territoryOKRel d) :
    ∀ d ∈ (rb.modifyCurrent f).release.ReleaseDetailsByTerritory, territoryOKRel d := by
  unfold ReleaseBuilder.modifyCurrent
  cases rb.currentTerritoryIndex with
  | none => exact h
  | some i => exact listUpdate_forall territoryOKRel f hf rb.release.ReleaseDetailsByTerritory i h

theorem releaseModifyGroup_ok {rb : ReleaseBuilder} {f : ResourceGroup → ResourceGroup}
    (h : ∀ d ∈ rb.release.ReleaseDetailsByTerritory, territoryOKRel d) :
    ∀ d ∈ (rb.modifyCurrentGroup f).release.ReleaseDetailsByTerritory, territoryOKRel d := by
  unfold ReleaseBuilder.modifyCurrentGroup
  cases rb.currentGroup with
  | none => exact h
  | some p =>
    cases p with
    | mk i j =>
      dsimp only
      exact listUpdate_forall territoryOKRel
        (fun d => { d with ResourceGroup := listUpdate d.ResourceGroup j f })
        (fun d hd => hd) rb.release.ReleaseDetailsByTerritory i h

theorem releaseAddResourceGroup_ok {rb : ReleaseBuilder} (t : String) (n : Int)
    (h : ∀ d ∈ rb.release.ReleaseDetailsByTerritory, territoryOKRel d) :
    ∀ d ∈ (rb.AddResourceGroup t n).release.ReleaseDetailsByTerritory, territoryOKRel d := by
  unfold ReleaseBuilder.AddResourceGroup
  have h' := @releaseEnsure_ok rb h
  generalize hg : rb.ensureTerritory = rb' at h' ⊢
  cases hidx : rb'.currentTerritoryIndex with
  | none =>
    simp only [hidx]
    exact h'
  | some i =>
    simp only [hidx]
    intro d hd
    refine listUpdate_forall territoryOKRel _ (fun y hy => ?_)
      rb'.release.ReleaseDetailsByTerritory i h' d hd
    exact hy

theorem applyReleaseOp_ok {rb : ReleaseBuilder} (op : ReleaseOp) (hop : goodReleaseOp op)
    (h : ∀ d ∈ rb.release.ReleaseDetailsByTerritory, territoryOKRel d) :
    ∀ d ∈ (applyReleaseOp rb op).release.ReleaseDetailsByTerritory, territoryOKRel d := by
  cases op with
  | withTitle t s => exact h
  | withTerritory codes => exact releaseWithTerritory_ok codes hop h
  | withDisplayArtistName a l => exact releaseModify_ok (fun d hd => hd) (releaseEnsure_ok h)
  | withArtist p r n =>
    refine releaseModify_ok ?_ (releaseEnsure_ok h)
    intro d hd
    dsimp only
    split <;> exact hd
  | withLabel l lc => exact releaseModify_ok (fun d hd => hd) (releaseEnsure_ok h)
  | withPLine y t => exact h
  | withTerritoryPLine y t => exact releaseModify_ok (fun d hd => hd) (releaseEnsure_ok h)
  | withCLine y t => exact h
  | withTerritoryCLine y t => exact releaseModify_ok (fun d hd => hd) (releaseEnsure_ok h)
  | withDuration d => exact h
  | withReleaseDate d => exact releaseModify_ok (fun d hd => hd) (releaseEnsure_ok h)
  | withOriginalReleaseDate d => exact releaseModify_ok (fun d hd => hd) (releaseEnsure_ok h)
  | withGenre g => exact releaseModify_ok (fun d hd => hd) (releaseEnsure_ok h)
  | withGenreAndSubGenre g s => exact releaseModify_ok (fun d hd => hd) (releaseEnsure_ok h)
  | withParentalWarning w => exact releaseModify_ok (fun d hd => hd) (releaseEnsure_ok h)
  | withAvRating r a => exact releaseModify_ok (fun d hd => hd) (releaseEnsure_ok h)
  | withMadeForKids => exact releaseModify_ok (fun d hd => hd) (releaseEnsure_ok h)
  | withMarketingComment c l => exact releaseModify_ok (fun d hd => hd) (releaseEnsure_ok h)
  | withKeywords k l => exact releaseModify_ok (fun d hd => hd) (releaseEnsure_ok h)
  | withICPN i => exact h
  | withISRC i => exact h
  | withGRid g => exact h
  | addProprietaryId n v => exact h
  | addReleaseResourceReference r => exact h
  | addRelatedRelease t rid => exact releaseModify_ok (fun d hd => hd) (releaseEnsure_ok h)
  | addResourceGroup t n => exact releaseAddResourceGroup_ok t n h
  | groupAddContentItem n r => exact releaseModifyGroup_ok h
  | groupAddLinkedResource l r => exact releaseModifyGroup_ok h
  | addReleaseDetailsByTerritory codes =>
    intro d hd
    simp only [applyReleaseOp, ReleaseBuilder.AddReleaseDetailsByTerritory] at hd
    rcases List.mem_append.mp hd with hd | hd
    · exact h d hd
    · simp only [List.mem_singleton] at hd
      subst hd
      refine ⟨?_, rfl⟩
      dsimp only
      split <;> simp_all

theorem runReleaseOps_ok (ops : List ReleaseOp) (hops : ∀ op ∈ ops, goodReleaseOp op) :
    ∀ (rb : ReleaseBuilder), (∀ d ∈ rb.release.ReleaseDetailsByTerritory, territoryOKRel d) →
      ∀ d ∈ (runReleaseOps rb ops).release.ReleaseDetailsByTerritory, territoryOKRel d := by
  induction ops with
  | nil => intro rb h; exact h
  | cons op ops ih =>
    intro rb h
    exact ih (fun o ho => hops o (List.mem_cons_of_mem op ho)) (applyReleaseOp rb op)
      (applyReleaseOp_ok op (hops op (List.mem_cons_self op ops)) h)

/-- C4 (amended): every territory section created by the ERN 3.8 builder
operations carries a non-empty `TerritoryCode` and an empty
`ExcludedTerritoryCode` — hence exactly one of the two lists is non-empty —
provided every explicit `WithTerritory` call passes a non-empty code list
(the `Add…DetailsByTerritory` methods may receive any list, since they
substitute `["Worldwide"]` for an empty one).  `WithTerritory` with an
empty list instead creates a section with both lists empty. -/
theorem claim_C4_amended_territory_choice :
    (∀ (ops : List VideoOp), (∀ op ∈ ops, goodVideoOp op) →
      ∀ (resourceRef videoType : String),
        ∀ d ∈ (runVideoOps (freshVideoBuilder resourceRef videoType)
            ops).video.VideoDetailsByTerritory,
          exactlyOneTerritoryChoice d.TerritoryCode d.ExcludedTerritoryCode) ∧
    (∀ (ops : List ImageOp), (∀ op ∈ ops, goodImageOp op) →
      ∀ (resourceRef imageType : String),
        ∀ d ∈ (runImageOps (freshImageBuilder resourceRef imageType)
            ops).image.ImageDetailsByTerritory,
          exactlyOneTerritoryChoice d.TerritoryCode d.ExcludedTerritoryCode) ∧
    (∀ (ops : List ReleaseOp), (∀ op ∈ ops, goodReleaseOp op) →
      ∀ (releaseRef releaseType : String),
        ∀ d ∈ (runReleaseOps (freshReleaseBuilder releaseRef releaseType)
            ops).release.ReleaseDetailsByTerritory,
          exactlyOneTerritoryChoice d.TerritoryCode d.ExcludedTerritoryCode) := by
  refine ⟨?_, ?_, ?_⟩
  · intro ops hops resourceRef videoType d hd
    have h := runVideoOps_ok ops hops (freshVideoBuilder resourceRef videoType)
      (fun x hx => absurd hx (List.not_mem_nil x)) d hd
    exact Or.inl h
  · intro ops hops resourceRef imageType d hd
    have h := runImageOps_ok ops hops (freshImageBuilder resourceRef imageType)
      (fun x hx => absurd hx (List.not_mem_nil x)) d hd
    exact Or.inl h
  · intro ops hops releaseRef releaseType d hd
    have h := runReleaseOps_ok ops hops (freshReleaseBuilder releaseRef releaseType)
      (fun x hx => absurd hx (List.not_mem_nil x)) d hd
    exact Or.inl h

/-- Closed instance of the amended C4 on concrete call chains for each of
the three builders. -/
theorem claim_C4_amended_territory_choice_witness :
    exactlyOneTerritoryChoice
      (((runVideoOps (freshVideoBuilder "A1" "Clip")
          [VideoOp.withParentalWarning "Explicit", VideoOp.withTerritory ["US"]]
        ).video.VideoDetailsByTerritory.getD 0 {}).TerritoryCode)
      (((runVideoOps (freshVideoBuilder "A1" "Clip")
          [VideoOp.withParentalWarning "Explicit", VideoOp.withTerritory ["US"]]
        ).video.VideoDetailsByTerritory.getD 0 {}).ExcludedTerritoryCode) ∧
    exactlyOneTerritoryChoice
      (((runImageOps (freshImageBuilder "A2" "FrontCoverImage")
          [ImageOp.withCLine 2024 "c", ImageOp.addImageDetailsByTerritory []]
        ).image.ImageDetailsByTerritory.getD 0 {}).TerritoryCode)
      (((runImageOps (freshImageBuilder "A2" "FrontCoverImage")
          [ImageOp.withCLine 2024 "c", ImageOp.addImageDetailsByTerritory []]
        ).image.ImageDetailsByTerritory.getD 0 {}).ExcludedTerritoryCode) ∧
    exactlyOneTerritoryChoice
      (((runReleaseOps (freshReleaseBuilder "R1" "VideoSingle")
          [ReleaseOp.withGenre "Pop", ReleaseOp.withTerritory ["DE", "FR"]]
        ).release.ReleaseDetailsByTerritory.getD 0 {}).TerritoryCode)
      (((runReleaseOps (freshReleaseBuilder "R1" "VideoSingle")
          [ReleaseOp.withGenre "Pop", ReleaseOp.withTerritory ["DE", "FR"]]
        ).release.ReleaseDetailsByTerritory.getD 0 {}).ExcludedTerritoryCode) := by
  refine ⟨?_, ?_, ?_⟩
  · exact claim_C4_amended_territory_choice.1
      [VideoOp.withParentalWarning "Explicit", VideoOp.withTerritory ["US"]]
      (by intro op hop
          rcases List.mem_cons.mp hop with rfl | hop
          · trivial
          · rcases List.mem_cons.mp hop with rfl | hop
            · simp [goodVideoOp]
            · exact absurd hop (List.not_mem_nil op))
      "A1" "Clip" _ (by decide)
  · exact claim_C4_amended_territory_choice.2.1
      [ImageOp.withCLine 2024 "c", ImageOp.addImageDetailsByTerritory []]
      (by intro op hop
          rcases List.mem_cons.mp hop with rfl | hop
          · trivial
          · rcases List.mem_cons.mp hop with rfl | hop
            · trivial
            · exact absurd hop (List.not_mem_nil op))
      "A2" "FrontCoverImage" _ (by decide)
  · exact claim_C4_amended_territory_choice.2.2
      [ReleaseOp.withGenre "Pop", ReleaseOp.withTerritory ["DE", "FR"]]
      (by intro op hop
          rcases List.mem_cons.mp hop with rfl | hop
          · trivial
          · rcases List.mem_cons.mp hop with rfl | hop
            · simp [goodReleaseOp]
            · exact absurd hop (List.not_mem_nil op))
      "R1" "VideoSingle" _ (by decide)
